import Mathlib

/-!
Floating windows of `widget/window.go`.

A shallow embedding of `widget.Window`: its size-constraint clamping
(`Window.SetLocation`), its construction (`NewWindow` and the `WindowOpts`
options), the mouse handlers installed at construction, and the per-frame
update `Window.Render`.

Go `int` coordinates are embedded as `Int`: window coordinates are screen
pixels, far from the range where machine arithmetic wraps.
-/

namespace widget

/-! ## Geometry of Go's `image` package, as used by `window.go` -/

/-- Go `image.Point`. -/
structure Point where
  X : Int
  Y : Int
deriving DecidableEq, Repr

/-- Go `image.Rectangle`: the two corners `Min` and `Max`. -/
structure Rectangle where
  Min : Point
  Max : Point
deriving DecidableEq, Repr

/-- Go `Rectangle.Dx`: the width `Max.X - Min.X`. -/
def Rectangle.Dx (r : Rectangle) : Int := r.Max.X - r.Min.X

/-- Go `Rectangle.Dy`: the height `Max.Y - Min.Y`. -/
def Rectangle.Dy (r : Rectangle) : Int := r.Max.Y - r.Min.Y

/-- Go `Rectangle.Add`: the rectangle translated by `p`. -/
def Rectangle.Add (r : Rectangle) (p : Point) : Rectangle :=
  { Min := { X := r.Min.X + p.X, Y := r.Min.Y + p.Y },
    Max := { X := r.Max.X + p.X, Y := r.Max.Y + p.Y } }

/-- Go `Rectangle.Empty`. -/
def Rectangle.Empty (r : Rectangle) : Bool :=
  decide (r.Min.X ≥ r.Max.X) || decide (r.Min.Y ≥ r.Max.Y)

/-- Go `Rectangle.Overlaps`: the two rectangles have a non-empty intersection. -/
def Rectangle.Overlaps (r s : Rectangle) : Bool :=
  !r.Empty && !s.Empty &&
    decide (r.Min.X < s.Max.X) && decide (s.Min.X < r.Max.X) &&
    decide (r.Min.Y < s.Max.Y) && decide (s.Min.Y < r.Max.Y)

/-- Go `image.Rect`: the rectangle with the given corners, the coordinates of
each axis swapped when they come in the wrong order. -/
def Rect (x0 y0 x1 y1 : Int) : Rectangle :=
  let (x0, x1) := if x0 > x1 then (x1, x0) else (x0, x1)
  let (y0, y1) := if y0 > y1 then (y1, y0) else (y0, y1)
  { Min := { X := x0, Y := y0 }, Max := { X := x1, Y := y1 } }

/-! ## Collaborators of the window -/

/-- Modelled from the spec: the layout unit `Container` of the container
engine, which is not part of `window.go`. The spec lists what the window
consumes of it: add child, set location (rectangle), request relayout, render,
read current rectangle. The model keeps the current rectangle, the number of
children, the minimum height written by `NewWindow` on the title bar, and
whether a layout pass is pending. -/
structure Container where
  Rect : Rectangle
  children : Nat
  MinHeight : Int
  relayoutRequested : Bool
deriving DecidableEq, Repr

/-- Modelled from the spec: `NewContainer`, a layout unit without children at
the zero rectangle. -/
def NewContainer : Container :=
  { Rect := { Min := { X := 0, Y := 0 }, Max := { X := 0, Y := 0 } },
    children := 0, MinHeight := 0, relayoutRequested := false }

/-- Modelled from the spec: `Container.SetLocation`, "the clamped rectangle is
then handed to the layout unit, which must trigger a layout pass for its
descendants". -/
def Container.SetLocation (c : Container) (rect : Rectangle) : Container :=
  { c with Rect := rect, relayoutRequested := true }

/-- Modelled from the spec: `Container.RequestRelayout`. -/
def Container.RequestRelayout (c : Container) : Container :=
  { c with relayoutRequested := true }

/-- Modelled from the spec: `Container.AddChild`. The content unit is
"required — absence is a construction-time contract violation, fail fast":
adding a nil child fails (`none`), adding a child succeeds. -/
def Container.AddChild (c : Container) (child : Option Container) : Option Container :=
  match child with
  | none => none
  | some _ => some { c with children := c.children + 1, relayoutRequested := true }

/-- Modelled from the spec: `Container.Render` arranges and draws the children
inside the rectangle of the unit; the rectangle of the unit itself is only read. -/
def Container.Render (c : Container) : Container :=
  { c with relayoutRequested := false }

/-- An action queued by an option for the end of construction. The only one in
`window.go` is the closure of `WindowOpts.Location`,
`func() { w.container.SetLocation(rect) }`. -/
inductive Deferred where
  | containerSetLocation (rect : Rectangle)
deriving DecidableEq, Repr

/-- Modelled from the spec: `MultiOnce`, the aggregator of deferred
initializers, "queued and executed exactly once, in registration order, at the
end of construction". -/
structure MultiOnce where
  fs : List Deferred
  done : Bool
deriving DecidableEq, Repr

/-- Modelled from the spec: `MultiOnce.Append` queues an action. -/
def MultiOnce.Append (m : MultiOnce) (f : Deferred) : MultiOnce :=
  { m with fs := m.fs ++ [f] }

/-- Cursor shapes set by `Window.Render`. -/
inductive CursorShape where
  | Default
  | EWResize
  | NSResize
deriving DecidableEq, Repr

/-- What a window operation does to the outside: an event fired (carrying the
`Rect` of its `WindowChangedEventArgs`), a call of the close function, a cursor
shape set. -/
inductive Effect where
  | MoveEvent (rect : Rectangle)
  | ResizeEvent (rect : Rectangle)
  | closeFunc (f : Nat)
  | SetCursorShape (c : CursorShape)
deriving DecidableEq, Repr

/-! ## The window -/

/-- The struct `Window`. `closeFunc` holds the identity of the function set by
`SetCloseFunction`, `MoveEvent` and `ResizeEvent` the number of handlers
registered on the event. The last three fields record which closures
`NewWindow` registered on the mouse events of the title bar, of the contents
and of the window container. -/
structure Window where
  ResizeEvent : Nat
  MoveEvent : Nat
  Modal : Bool
  Contents : Option Container
  TitleBar : Option Container
  Draggable : Bool
  Resizeable : Bool
  MinSize : Option Point
  MaxSize : Option Point
  closeOnClick : Bool
  closeFunc : Option Nat
  container : Container
  titleBarHeight : Int
  startingPoint : Point
  dragging : Bool
  resizing : Bool
  resizingWidth : Bool
  resizingHeight : Bool
  originalSize : Point
  init : MultiOnce
  titleBarHandlers : Bool
  contentsHandlers : Bool
  containerHandler : Bool
deriving DecidableEq, Repr

/-- The first `if` of `Window.SetLocation`: with a minimum size, an extent
below the minimum moves the `Max` corner out to `Min + MinSize`. -/
def clampMin (MinSize : Option Point) (rect : Rectangle) : Rectangle :=
  match MinSize with
  | some m =>
    let rect := if rect.Dx < m.X then
      { rect with Max := { rect.Max with X := rect.Min.X + m.X } } else rect
    let rect := if rect.Dy < m.Y then
      { rect with Max := { rect.Max with Y := rect.Min.Y + m.Y } } else rect
    rect
  | none => rect

/-- The second `if` of `Window.SetLocation`: with a maximum size, an extent
above the maximum moves the `Max` corner back to `Min + MaxSize`. -/
def clampMax (MaxSize : Option Point) (rect : Rectangle) : Rectangle :=
  match MaxSize with
  | some m =>
    let rect := if rect.Dx > m.X then
      { rect with Max := { rect.Max with X := rect.Min.X + m.X } } else rect
    let rect := if rect.Dy > m.Y then
      { rect with Max := { rect.Max with Y := rect.Min.Y + m.Y } } else rect
    rect
  | none => rect

/-- Method `Window.SetLocation`: clamp by the minimum, then by the maximum, then hand
the rectangle to the container. -/
def Window.SetLocation (w : Window) (rect : Rectangle) : Window :=
  let rect := clampMin w.MinSize rect
  let rect := clampMax w.MaxSize rect
  { w with container := w.container.SetLocation rect }

/-- Method `Window.RequestRelayout`. -/
def Window.RequestRelayout (w : Window) : Window :=
  { w with container := w.container.RequestRelayout }

/-- Method `Window.SetCloseFunction`. -/
def Window.SetCloseFunction (w : Window) (close : Option Nat) : Window :=
  { w with closeFunc := close }

/-- Method `Window.Close`: call the close function when there is one. -/
def Window.Close (w : Window) : Window × List Effect :=
  match w.closeFunc with
  | some f => (w, [Effect.closeFunc f])
  | none => (w, [])

/-- The closure queued by `WindowOpts.Location`, run on the window under
construction: `w.container.SetLocation(rect)`, the setter of the container and
not `Window.SetLocation`. -/
def Deferred.run (f : Deferred) (w : Window) : Window :=
  match f with
  | Deferred.containerSetLocation rect =>
    { w with container := w.container.SetLocation rect }

/-- Modelled from the spec: `MultiOnce.Do` runs the queued actions once, in
registration order; a second call does nothing. -/
def MultiOnce.Do (w : Window) : Window :=
  if w.init.done then w
  else
    let w := w.init.fs.foldl (fun w f => f.run w) w
    { w with init := { fs := [], done := true } }

/-- An option of `WindowOpts`, the value `WindowOpt` as data. The container
arguments are Go pointers and may be nil. -/
inductive WindowOpt where
  | Contents (c : Option Container)
  | TitleBar (tb : Option Container) (height : Int)
  | Modal
  | Draggable
  | Resizeable
  | MinSize (width : Int) (height : Int)
  | MaxSize (width : Int) (height : Int)
  | CloseOnClickOut
  | MoveHandler
  | ResizeHandler
  | Location (rect : Rectangle)
deriving DecidableEq, Repr

/-- What each option function does to the window under construction. -/
def WindowOpt.apply (o : WindowOpt) (w : Window) : Window :=
  match o with
  | WindowOpt.Contents c => { w with Contents := c }
  | WindowOpt.TitleBar tb height => { w with TitleBar := tb, titleBarHeight := height }
  | WindowOpt.Modal => { w with Modal := true }
  | WindowOpt.Draggable => { w with Draggable := true }
  | WindowOpt.Resizeable => { w with Resizeable := true }
  | WindowOpt.MinSize width height => { w with MinSize := some { X := width, Y := height } }
  | WindowOpt.MaxSize width height => { w with MaxSize := some { X := width, Y := height } }
  | WindowOpt.CloseOnClickOut => { w with closeOnClick := true }
  | WindowOpt.MoveHandler => { w with MoveEvent := w.MoveEvent + 1 }
  | WindowOpt.ResizeHandler => { w with ResizeEvent := w.ResizeEvent + 1 }
  | WindowOpt.Location rect =>
    { w with init := w.init.Append (Deferred.containerSetLocation rect) }

/-- The struct literal at the head of `NewWindow`: two events without handlers,
an empty `MultiOnce`, every other field at its zero value. The container is
nil in Go until `NewWindow` creates it; no option reads it. -/
def zeroWindow : Window :=
  { ResizeEvent := 0, MoveEvent := 0, Modal := false, Contents := none, TitleBar := none,
    Draggable := false, Resizeable := false, MinSize := none, MaxSize := none,
    closeOnClick := false, closeFunc := none, container := NewContainer,
    titleBarHeight := 0, startingPoint := { X := 0, Y := 0 },
    dragging := false, resizing := false, resizingWidth := false, resizingHeight := false,
    originalSize := { X := 0, Y := 0 }, init := { fs := [], done := false },
    titleBarHandlers := false, contentsHandlers := false, containerHandler := false }

/-- The `for _, o := range opts` loop of `NewWindow`. -/
def applyOpts (opts : List WindowOpt) (w : Window) : Window :=
  opts.foldl (fun w o => o.apply w) w

/-- The `if w.TitleBar != nil ... else ...` block of `NewWindow`: the window
container is created and receives the title bar (with the drag handlers when
the window is draggable) and the contents, or the contents alone. `none` is a
panic of the container engine on a nil child. -/
def composeLayout (w : Window) : Option Window :=
  match w.TitleBar with
  | some tb =>
    let c := NewContainer
    let w := { w with TitleBar := some { tb with MinHeight := w.titleBarHeight } }
    let w := if w.Draggable then { w with titleBarHandlers := true } else w
    match c.AddChild w.TitleBar with
    | none => none
    | some c =>
      match c.AddChild w.Contents with
      | none => none
      | some c => some { w with container := c }
  | none =>
    match NewContainer.AddChild w.Contents with
    | none => none
    | some c => some { w with container := c }

/-- The `if w.Resizeable` block of `NewWindow`: the resize handlers are
registered on the contents; `w.Contents.GetWidget()` on a nil contents is a
panic (`none`). -/
def registerResize (w : Window) : Option Window :=
  if w.Resizeable then
    match w.Contents with
    | some _ => some { w with contentsHandlers := true }
    | none => none
  else some w

/-- The `if w.closeOnClick` block of `NewWindow`. -/
def registerCloseOnClick (w : Window) : Window :=
  if w.closeOnClick then { w with containerHandler := true } else w

/-- Constructor `NewWindow`: apply the options, compose title bar and contents into the
window container, register the mouse handlers the configuration asks for, run
the deferred actions. `none` is a panic during construction. -/
def NewWindow (opts : List WindowOpt) : Option Window :=
  match composeLayout (applyOpts opts zeroWindow) with
  | none => none
  | some w =>
    match registerResize w with
    | none => none
    | some w => some (MultiOnce.Do (registerCloseOnClick w))

/-! ## Mouse handlers registered by `NewWindow` -/

/-- The press handler on the title bar (registered when the window has a title
bar and is draggable): record the pointer, start dragging. -/
def Window.titleBarPressed (w : Window) (x y : Int) : Window :=
  if w.titleBarHandlers then
    { w with startingPoint := { X := x, Y := y }, dragging := true }
  else w

/-- The release handler on the title bar: when dragging, stop and fire
`MoveEvent` with the rectangle of the container. -/
def Window.titleBarReleased (w : Window) : Window × List Effect :=
  if w.titleBarHandlers then
    if w.dragging then
      ({ w with dragging := false }, [Effect.MoveEvent w.container.Rect])
    else (w, [])
  else (w, [])

/-- The press handler on the contents (registered when the window is
resizeable): record the pointer and the `Max` corner, start resizing. -/
def Window.contentsPressed (w : Window) (x y : Int) : Window :=
  if w.contentsHandlers then
    { w with startingPoint := { X := x, Y := y },
             originalSize := { X := w.container.Rect.Max.X, Y := w.container.Rect.Max.Y },
             resizing := true }
  else w

/-- The release handler on the contents: when resizing, stop and fire
`ResizeEvent` with the rectangle of the container. -/
def Window.contentsReleased (w : Window) : Window × List Effect :=
  if w.contentsHandlers then
    if w.resizing then
      ({ w with resizing := false }, [Effect.ResizeEvent w.container.Rect])
    else (w, [])
  else (w, [])

/-- The release handler on the window container (registered with
`CloseOnClickOut`): a release outside calls the close function, if any. -/
def Window.containerReleased (w : Window) (inside : Bool) : Window × List Effect :=
  if w.containerHandler then
    match w.closeFunc with
    | some f => if !inside then (w, [Effect.closeFunc f]) else (w, [])
    | none => (w, [])
  else (w, [])

/-! ## The per-frame update -/

/-- The `if w.dragging` block of `Window.Render` at pointer `(x, y)`. -/
def Window.renderDrag (w : Window) (x y : Int) : Window :=
  if w.dragging then
    if w.startingPoint.X ≠ x ∨ w.startingPoint.Y ≠ y then
      let newRect := w.container.Rect.Add
        { X := x - w.startingPoint.X, Y := y - w.startingPoint.Y }
      let w := w.SetLocation newRect
      let w := w.RequestRelayout
      { w with startingPoint := { X := x, Y := y } }
    else w
  else w

/-- The `if w.resizingWidth` block of `Window.Render`. -/
def Window.renderResizeWidth (w : Window) (x : Int) : Window :=
  if w.resizingWidth then
    let newRect := w.container.Rect
    let newRect := { newRect with
      Max := { newRect.Max with X := w.originalSize.X - (w.startingPoint.X - x) } }
    let w := w.SetLocation newRect
    w.RequestRelayout
  else w

/-- The `if w.resizingHeight` block of `Window.Render`. -/
def Window.renderResizeHeight (w : Window) (y : Int) : Window :=
  if w.resizingHeight then
    let newRect := w.container.Rect
    let newRect := { newRect with
      Max := { newRect.Max with Y := w.originalSize.Y - (w.startingPoint.Y - y) } }
    let w := w.SetLocation newRect
    w.RequestRelayout
  else w

/-- The `if w.resizing` block of `Window.Render` at pointer `(x, y)`. -/
def Window.renderResize (w : Window) (x y : Int) : Window :=
  if w.resizing then
    if w.startingPoint.X ≠ x ∨ w.startingPoint.Y ≠ y then
      let w := w.renderResizeWidth x
      let w := w.renderResizeHeight y
      w
    else w
  else w

/-- The `if w.Resizeable` block of `Window.Render`: the hover test. `active`
is the answer of `inputLayer.ActiveFor(x, y, input.LayerEventTypeAll)`. -/
def Window.renderHover (w : Window) (x y : Int) (active : Bool) : Window × List Effect :=
  if w.Resizeable then
    if active then
      let r := w.container.Rect
      let xRect := Rect (r.Max.X - 6) r.Min.Y r.Max.X r.Max.Y
      let yRect := Rect r.Min.X (r.Max.Y - 6) r.Max.X r.Max.Y
      let cursorRect := Rect x y (x + 1) (y + 1)
      if cursorRect.Overlaps xRect then
        ({ w with resizingWidth := true, resizingHeight := false },
          [Effect.SetCursorShape CursorShape.EWResize])
      else if cursorRect.Overlaps yRect then
        ({ w with resizingWidth := false, resizingHeight := true },
          [Effect.SetCursorShape CursorShape.NSResize])
      else
        ({ w with resizingWidth := false, resizingHeight := false },
          [Effect.SetCursorShape CursorShape.Default])
    else
      ({ w with resizingWidth := false, resizingHeight := false },
        [Effect.SetCursorShape CursorShape.Default])
  else (w, [])

/-- Method `Window.Render` with the pointer at `(x, y)`: the drag block, the resize
block, the hover test, then the container renders. -/
def Window.Render (w : Window) (x y : Int) (active : Bool) : Window × List Effect :=
  let w := w.renderDrag x y
  let w := w.renderResize x y
  let r := w.renderHover x y active
  ({ r.1 with container := r.1.container.Render }, r.2)

/-! ## Runs of a window -/

/-- What can happen to a constructed window: the mouse events on its title bar,
contents and container, a frame, and the calls of its public methods. -/
inductive Input where
  | titleBarPressed (x y : Int)
  | titleBarReleased
  | contentsPressed (x y : Int)
  | contentsReleased
  | containerReleased (inside : Bool)
  | Render (x y : Int) (active : Bool)
  | SetLocation (rect : Rectangle)
  | RequestRelayout
  | SetCloseFunction (close : Option Nat)
  | Close
deriving DecidableEq, Repr

/-- One input applied to the window: the new state and what was fired. -/
def step (w : Window) (i : Input) : Window × List Effect :=
  match i with
  | Input.titleBarPressed x y => (w.titleBarPressed x y, [])
  | Input.titleBarReleased => w.titleBarReleased
  | Input.contentsPressed x y => (w.contentsPressed x y, [])
  | Input.contentsReleased => w.contentsReleased
  | Input.containerReleased inside => w.containerReleased inside
  | Input.Render x y active => w.Render x y active
  | Input.SetLocation rect => (w.SetLocation rect, [])
  | Input.RequestRelayout => (w.RequestRelayout, [])
  | Input.SetCloseFunction close => (w.SetCloseFunction close, [])
  | Input.Close => w.Close

/-- A sequence of inputs applied in order: the final state and everything
fired on the way. -/
def run (w : Window) : List Input → Window × List Effect
  | [] => (w, [])
  | i :: is =>
    let r := step w i
    let r2 := run r.1 is
    (r2.1, r.2 ++ r2.2)

/-- A state some run of a window built by `NewWindow opts` reaches. -/
def Reachable (opts : List WindowOpt) (s : Window) : Prop :=
  ∃ w0 is, NewWindow opts = some w0 ∧ (run w0 is).1 = s

/-- The rectangles carried by the `MoveEvent` firings among the effects, in
order. -/
def moveEvents (fx : List Effect) : List Rectangle :=
  fx.filterMap (fun e => match e with | Effect.MoveEvent r => some r | _ => none)

/-- The rectangles carried by the `ResizeEvent` firings among the effects, in
order. -/
def resizeEvents (fx : List Effect) : List Rectangle :=
  fx.filterMap (fun e => match e with | Effect.ResizeEvent r => some r | _ => none)

/-- A sequence of frames: one `Render` per pointer sample `(x, y, active)`. -/
def frames (ps : List (Int × Int × Bool)) : List Input :=
  ps.map (fun p => Input.Render p.1 p.2.1 p.2.2)

/-- The last pointer sample of a sequence of frames, `p0` when there is none. -/
def lastPointer (p0 : Point) (ps : List (Int × Int × Bool)) : Point :=
  ps.foldl (fun _ p => { X := p.1, Y := p.2.1 }) p0

/-- The two windows agree on everything `NewWindow` fixes: the configuration
fields and the registered handlers. -/
def Window.sameConfig (a b : Window) : Prop :=
  a.MinSize = b.MinSize ∧ a.MaxSize = b.MaxSize ∧ a.Draggable = b.Draggable ∧
  a.Resizeable = b.Resizeable ∧ a.TitleBar = b.TitleBar ∧ a.Contents = b.Contents ∧
  a.Modal = b.Modal ∧ a.closeOnClick = b.closeOnClick ∧
  a.titleBarHandlers = b.titleBarHandlers ∧ a.contentsHandlers = b.contentsHandlers ∧
  a.containerHandler = b.containerHandler

/-- The rectangle satisfies the size constraint of the window: each extent is
at least the minimum where `MinSize` is set and at most the maximum where
`MaxSize` is set. -/
def Window.conforms (w : Window) (R : Rectangle) : Prop :=
  (∀ m, w.MinSize = some m → m.X ≤ R.Dx ∧ m.Y ≤ R.Dy) ∧
  (∀ M, w.MaxSize = some M → R.Dx ≤ M.X ∧ R.Dy ≤ M.Y)

/-- What `NewWindow` establishes of the gesture flags and every input keeps:
a gesture flag is set only with its handlers registered, the handlers are
registered as the configuration says, the hover flags are set only on a
resizeable window and never both. -/
def Window.wellFormed (w : Window) : Prop :=
  (w.dragging = true → w.titleBarHandlers = true) ∧
  (w.resizing = true → w.contentsHandlers = true) ∧
  (w.titleBarHandlers = (w.TitleBar.isSome && w.Draggable)) ∧
  (w.contentsHandlers = w.Resizeable) ∧
  ((w.resizingWidth = true ∨ w.resizingHeight = true) → w.Resizeable = true) ∧
  ¬ (w.resizingWidth = true ∧ w.resizingHeight = true)

/-- The two windows agree on the gesture flags, the gesture-start size and the
close function. -/
def Window.sameFlags (a b : Window) : Prop :=
  a.dragging = b.dragging ∧ a.resizing = b.resizing ∧
  a.resizingWidth = b.resizingWidth ∧ a.resizingHeight = b.resizingHeight ∧
  a.originalSize = b.originalSize ∧ a.closeFunc = b.closeFunc

/-! ## A window to evaluate on -/

/-- Options of a window with a title bar 20 high, draggable and resizeable,
between `(100,50)` and `(400,300)` in size, placed at `(0,0)-(200,100)`. -/
def exampleOpts : List WindowOpt :=
  [WindowOpt.Contents (some NewContainer), WindowOpt.TitleBar (some NewContainer) 20,
   WindowOpt.Draggable, WindowOpt.Resizeable, WindowOpt.MinSize 100 50,
   WindowOpt.MaxSize 400 300, WindowOpt.Location ⟨⟨0, 0⟩, ⟨200, 100⟩⟩]

/-- The window `NewWindow exampleOpts` returns. -/
def exampleWindow : Window := (NewWindow exampleOpts).getD zeroWindow


/-! ## The input layer -/

/-- Go `Point.In`: the point lies in the rectangle, `Min` included and `Max`
excluded. -/
def Point.In (p : Point) (r : Rectangle) : Bool :=
  decide (r.Min.X ≤ p.X) && decide (p.X < r.Max.X) &&
    decide (r.Min.Y ≤ p.Y) && decide (p.Y < r.Max.Y)

/-- The event-type mask of an input layer; `window.go` uses
`input.LayerEventTypeAll` only. -/
inductive LayerEventType where
  | All
deriving DecidableEq, Repr

/-- The rectangle provider of an input layer. The only one in `window.go` is
the closure `func() image.Rectangle { return w.container.GetWidget().Rect }`,
which reads the window when it is called. -/
inductive RectFunc where
  | containerRect
deriving DecidableEq, Repr

/-- The rectangle the provider returns when called on the window `w`. -/
def RectFunc.call (f : RectFunc) (w : Window) : Rectangle :=
  match f with
  | RectFunc.containerRect => w.container.Rect

/-- Modelled from the spec: `input.Layer`, the exclusive input region of the
input-layer system, which is not part of `window.go`: "debug label, event-type
mask, block-lower flag, full-screen flag, rectangle-provider function". -/
structure Layer where
  DebugLabel : String
  EventTypes : LayerEventType
  BlockLower : Bool
  FullScreen : Bool
  RectFunc : RectFunc
deriving DecidableEq, Repr

/-- Modelled from the spec: the hit test of an input layer, asked while the
window is in state `w`: a full-screen layer "expands its hit region to the
entire visible surface; otherwise its hit region equals its current rectangle,
recomputed on each query (never cached)". -/
def Layer.contains (l : Layer) (w : Window) (x y : Int) : Bool :=
  if l.FullScreen then true
  else Point.In { X := x, Y := y } (l.RectFunc.call w)

/-- Method `Window.SetupInputLayer`: the layer the window container is elevated
to. -/
def Window.SetupInputLayer (w : Window) : Layer :=
  { DebugLabel := "window",
    EventTypes := LayerEventType.All,
    BlockLower := true,
    FullScreen := w.Modal,
    RectFunc := RectFunc.containerRect }

/-! ## Calls of the close function -/

/-- The close functions called among the effects, in order. -/
def closeCalls (fx : List Effect) : List Nat :=
  fx.filterMap (fun e => match e with | Effect.closeFunc f => some f | _ => none)

/-- Options of a window that closes on a click outside. -/
def closableOpts : List WindowOpt :=
  [WindowOpt.Contents (some NewContainer), WindowOpt.CloseOnClickOut,
   WindowOpt.Location ⟨⟨0, 0⟩, ⟨200, 100⟩⟩]

/-- The window `NewWindow closableOpts` returns. -/
def closableWindow : Window := (NewWindow closableOpts).getD zeroWindow

/-! ## Clamping -/

theorem SetLocation_rect (w : Window) (R : Rectangle) :
    (w.SetLocation R).container.Rect = clampMax w.MaxSize (clampMin w.MinSize R) := rfl

theorem clampMin_Min (mn : Option Point) (R : Rectangle) : (clampMin mn R).Min = R.Min := by
  cases mn with
  | none => rfl
  | some m => simp only [clampMin]; split_ifs <;> rfl

theorem clampMax_Min (mx : Option Point) (R : Rectangle) : (clampMax mx R).Min = R.Min := by
  cases mx with
  | none => rfl
  | some m => simp only [clampMax]; split_ifs <;> rfl

theorem clampMin_Dx (mn : Option Point) (R : Rectangle) :
    (clampMin mn R).Dx = match mn with
      | some m => if R.Dx < m.X then m.X else R.Dx
      | none => R.Dx := by
  cases mn with
  | none => rfl
  | some m =>
    simp only [clampMin, Rectangle.Dx, Rectangle.Dy]
    split_ifs <;> simp

theorem clampMin_Dy (mn : Option Point) (R : Rectangle) :
    (clampMin mn R).Dy = match mn with
      | some m => if R.Dy < m.Y then m.Y else R.Dy
      | none => R.Dy := by
  cases mn with
  | none => rfl
  | some m =>
    simp only [clampMin, Rectangle.Dx, Rectangle.Dy]
    split_ifs <;> simp

theorem clampMax_Dx (mx : Option Point) (R : Rectangle) :
    (clampMax mx R).Dx = match mx with
      | some m => if R.Dx > m.X then m.X else R.Dx
      | none => R.Dx := by
  cases mx with
  | none => rfl
  | some m =>
    simp only [clampMax, Rectangle.Dx, Rectangle.Dy]
    split_ifs <;> simp

theorem clampMax_Dy (mx : Option Point) (R : Rectangle) :
    (clampMax mx R).Dy = match mx with
      | some m => if R.Dy > m.Y then m.Y else R.Dy
      | none => R.Dy := by
  cases mx with
  | none => rfl
  | some m =>
    simp only [clampMax, Rectangle.Dx, Rectangle.Dy]
    split_ifs <;> simp

/-- Width handed to the container by `Window.SetLocation`, in closed form. -/
theorem SetLocation_Dx (w : Window) (R : Rectangle) :
    (w.SetLocation R).container.Rect.Dx =
      (match w.MaxSize with
        | some M =>
          if (match w.MinSize with
              | some m => if R.Dx < m.X then m.X else R.Dx
              | none => R.Dx) > M.X then M.X
          else (match w.MinSize with
              | some m => if R.Dx < m.X then m.X else R.Dx
              | none => R.Dx)
        | none => (match w.MinSize with
              | some m => if R.Dx < m.X then m.X else R.Dx
              | none => R.Dx)) := by
  rw [SetLocation_rect, clampMax_Dx, clampMin_Dx]

theorem SetLocation_Dy (w : Window) (R : Rectangle) :
    (w.SetLocation R).container.Rect.Dy =
      (match w.MaxSize with
        | some M =>
          if (match w.MinSize with
              | some m => if R.Dy < m.Y then m.Y else R.Dy
              | none => R.Dy) > M.Y then M.Y
          else (match w.MinSize with
              | some m => if R.Dy < m.Y then m.Y else R.Dy
              | none => R.Dy)
        | none => (match w.MinSize with
              | some m => if R.Dy < m.Y then m.Y else R.Dy
              | none => R.Dy)) := by
  rw [SetLocation_rect, clampMax_Dy, clampMin_Dy]

/-- C1 (as stated, refuted): with `MinSize (100,50)` and `MaxSize (50,300)` the
window built by `NewWindow` hands the container a rectangle of width 50 for
the input `(0,0)-(10,60)`, below the configured minimum width 100. -/
theorem SetLocation_min_bound_counterexample :
    (NewWindow [WindowOpt.Contents (some NewContainer), WindowOpt.MinSize 100 50,
        WindowOpt.MaxSize 50 300]).map
      (fun w => (w.MinSize, w.MaxSize, (w.SetLocation ⟨⟨0, 0⟩, ⟨10, 60⟩⟩).container.Rect))
      = some (some ⟨100, 50⟩, some ⟨50, 300⟩, ⟨⟨0, 0⟩, ⟨50, 60⟩⟩)
    ∧ ¬ (100 ≤ Rectangle.Dx ⟨⟨0, 0⟩, ⟨50, 60⟩⟩) := by
  decide

/-- C1 (amended): the rectangle `Window.SetLocation` hands to the container
never exceeds a configured maximum, on either axis; it reaches a configured
minimum on every axis where the maximum is absent or not below the minimum. -/
theorem SetLocation_within_bounds (w : Window) (R : Rectangle) :
    (∀ M, w.MaxSize = some M →
      (w.SetLocation R).container.Rect.Dx ≤ M.X ∧ (w.SetLocation R).container.Rect.Dy ≤ M.Y) ∧
    (∀ m, w.MinSize = some m → (∀ M, w.MaxSize = some M → m.X ≤ M.X) →
      m.X ≤ (w.SetLocation R).container.Rect.Dx) ∧
    (∀ m, w.MinSize = some m → (∀ M, w.MaxSize = some M → m.Y ≤ M.Y) →
      m.Y ≤ (w.SetLocation R).container.Rect.Dy) := by
  rw [SetLocation_Dx, SetLocation_Dy]
  refine ⟨?_, ?_, ?_⟩
  · intro M hM
    rw [hM]
    constructor <;> (simp only []; split_ifs <;> omega)
  · intro m hm hc
    rw [hm]
    cases hMx : w.MaxSize with
    | none => simp only []; split_ifs <;> omega
    | some M =>
      have := hc M hMx
      simp only []; split_ifs <;> omega
  · intro m hm hc
    rw [hm]
    cases hMx : w.MaxSize with
    | none => simp only []; split_ifs <;> omega
    | some M =>
      have := hc M hMx
      simp only []; split_ifs <;> omega

/-- C1 (amended), at `MinSize (100,50)`, `MaxSize (400,300)` and the rectangle
`(0,0)-(10,600)`: the width is at least 100 and the height at most 300. -/
theorem SetLocation_within_bounds_witness :
    (100 : Int) ≤
      (({ zeroWindow with MinSize := some ⟨100, 50⟩, MaxSize := some ⟨400, 300⟩ } : Window).SetLocation
        ⟨⟨0, 0⟩, ⟨10, 600⟩⟩).container.Rect.Dx ∧
    (({ zeroWindow with MinSize := some ⟨100, 50⟩, MaxSize := some ⟨400, 300⟩ } : Window).SetLocation
        ⟨⟨0, 0⟩, ⟨10, 600⟩⟩).container.Rect.Dy ≤ (300 : Int) :=
  ⟨(SetLocation_within_bounds _ ⟨⟨0, 0⟩, ⟨10, 600⟩⟩).2.1 ⟨100, 50⟩ rfl
      (fun M hM => by cases hM; decide),
   ((SetLocation_within_bounds _ ⟨⟨0, 0⟩, ⟨10, 600⟩⟩).1 ⟨400, 300⟩ rfl).2⟩

/-- C2: the rectangle `Window.SetLocation` hands to the container has the `Min`
corner of the rectangle it was given, whatever `MinSize` and `MaxSize` are. -/
theorem SetLocation_origin (w : Window) (R : Rectangle) :
    (w.SetLocation R).container.Rect.Min = R.Min := by
  rw [SetLocation_rect, clampMax_Min, clampMin_Min]

/-- C3 (code evaluated at the failing input): a window built with
`MinSize (100,50)` and `Location (0,0)-(10,10)` has the rectangle
`(0,0)-(10,10)` after construction, of width 10 and height 10, while
`Window.SetLocation` on the same window and rectangle yields `(0,0)-(100,50)`. -/
theorem Location_ignores_MinSize :
    (NewWindow [WindowOpt.Contents (some NewContainer), WindowOpt.MinSize 100 50,
        WindowOpt.Location ⟨⟨0, 0⟩, ⟨10, 10⟩⟩]).map
      (fun w => (w.MinSize, w.container.Rect, w.container.Rect.Dx, w.container.Rect.Dy,
        (w.SetLocation ⟨⟨0, 0⟩, ⟨10, 10⟩⟩).container.Rect))
      = some (some ⟨100, 50⟩, ⟨⟨0, 0⟩, ⟨10, 10⟩⟩, 10, 10, ⟨⟨0, 0⟩, ⟨100, 50⟩⟩) := by
  decide

/-- C8: with `MinSize` and `MaxSize` both set, on an axis where the minimum
exceeds the maximum the rectangle handed to the container has exactly the
maximum extent. -/
theorem SetLocation_max_wins (w : Window) (R : Rectangle) (m M : Point)
    (hm : w.MinSize = some m) (hM : w.MaxSize = some M) :
    (m.X > M.X → (w.SetLocation R).container.Rect.Dx = M.X) ∧
    (m.Y > M.Y → (w.SetLocation R).container.Rect.Dy = M.Y) := by
  rw [SetLocation_Dx, SetLocation_Dy, hm, hM]
  constructor <;> (intro h; simp only []; split_ifs <;> omega)

/-- C8 at `MinSize (100,50)`, `MaxSize (50,20)` and the rectangle
`(3,4)-(500,9)`: the result is 50 wide and 20 high. -/
theorem SetLocation_max_wins_witness :
    (({ zeroWindow with MinSize := some ⟨100, 50⟩, MaxSize := some ⟨50, 20⟩ } : Window).SetLocation
        ⟨⟨3, 4⟩, ⟨500, 9⟩⟩).container.Rect.Dx = 50 ∧
    (({ zeroWindow with MinSize := some ⟨100, 50⟩, MaxSize := some ⟨50, 20⟩ } : Window).SetLocation
        ⟨⟨3, 4⟩, ⟨500, 9⟩⟩).container.Rect.Dy = 20 :=
  ⟨(SetLocation_max_wins _ ⟨⟨3, 4⟩, ⟨500, 9⟩⟩ ⟨100, 50⟩ ⟨50, 20⟩ rfl rfl).1 (by decide),
   (SetLocation_max_wins _ ⟨⟨3, 4⟩, ⟨500, 9⟩⟩ ⟨100, 50⟩ ⟨50, 20⟩ rfl rfl).2 (by decide)⟩

/-- C9 (as stated, refuted): a resizeable window without `MinSize` at
`(100,100)-(300,200)`, its right edge grabbed at `(298,150)` and the pointer
taken to `(50,150)`, ends the frame at `(100,100)-(52,200)`: `Window.SetLocation`
handed the container a rectangle of width -48. -/
theorem SetLocation_negative_counterexample :
    (NewWindow [WindowOpt.Contents (some NewContainer), WindowOpt.Resizeable,
        WindowOpt.Location ⟨⟨100, 100⟩, ⟨300, 200⟩⟩]).map
      (fun w =>
        ((run w [Input.Render 298 150 true, Input.contentsPressed 298 150,
          Input.Render 50 150 true]).1.container.Rect,
         (w.SetLocation ⟨⟨100, 100⟩, ⟨52, 200⟩⟩).container.Rect,
         (w.SetLocation ⟨⟨100, 100⟩, ⟨52, 200⟩⟩).container.Rect.Dx))
      = some (⟨⟨100, 100⟩, ⟨52, 200⟩⟩, ⟨⟨100, 100⟩, ⟨52, 200⟩⟩, -48) := by
  decide

/-- C9 (amended): on each axis, the rectangle handed to the container has a
non-negative extent when `MaxSize` is absent or non-negative on that axis and
either the given rectangle has a non-negative extent there or a `MinSize`
non-negative on that axis is set. -/
theorem SetLocation_nonneg (w : Window) (R : Rectangle) :
    ((∀ M, w.MaxSize = some M → 0 ≤ M.X) →
      (0 ≤ R.Dx ∨ ∃ m, w.MinSize = some m ∧ 0 ≤ m.X) →
      0 ≤ (w.SetLocation R).container.Rect.Dx) ∧
    ((∀ M, w.MaxSize = some M → 0 ≤ M.Y) →
      (0 ≤ R.Dy ∨ ∃ m, w.MinSize = some m ∧ 0 ≤ m.Y) →
      0 ≤ (w.SetLocation R).container.Rect.Dy) := by
  rw [SetLocation_Dx, SetLocation_Dy]
  constructor
  · intro hM h
    cases hMx : w.MaxSize with
    | none =>
      rcases h with h | ⟨m, hm, h0⟩
      · cases hmn : w.MinSize <;> (simp only []; omega)
      · rw [hm]; simp only []; split_ifs <;> omega
    | some M =>
      have := hM M hMx
      rcases h with h | ⟨m, hm, h0⟩
      · cases hmn : w.MinSize <;> (simp only []; omega)
      · rw [hm]; simp only []; split_ifs <;> omega
  · intro hM h
    cases hMx : w.MaxSize with
    | none =>
      rcases h with h | ⟨m, hm, h0⟩
      · cases hmn : w.MinSize <;> (simp only []; omega)
      · rw [hm]; simp only []; split_ifs <;> omega
    | some M =>
      have := hM M hMx
      rcases h with h | ⟨m, hm, h0⟩
      · cases hmn : w.MinSize <;> (simp only []; omega)
      · rw [hm]; simp only []; split_ifs <;> omega

/-- C9 (amended), at `MinSize (100,50)` without `MaxSize` and the rectangle
`(100,100)-(52,90)` of negative extents: the result has width and height at
least 0. -/
theorem SetLocation_nonneg_witness :
    0 ≤ (({ zeroWindow with MinSize := some ⟨100, 50⟩ } : Window).SetLocation
        ⟨⟨100, 100⟩, ⟨52, 90⟩⟩).container.Rect.Dx ∧
    0 ≤ (({ zeroWindow with MinSize := some ⟨100, 50⟩ } : Window).SetLocation
        ⟨⟨100, 100⟩, ⟨52, 90⟩⟩).container.Rect.Dy :=
  ⟨(SetLocation_nonneg _ ⟨⟨100, 100⟩, ⟨52, 90⟩⟩).1 (fun M hM => by cases hM)
      (Or.inr ⟨⟨100, 50⟩, rfl, by decide⟩),
   (SetLocation_nonneg _ ⟨⟨100, 100⟩, ⟨52, 90⟩⟩).2 (fun M hM => by cases hM)
      (Or.inr ⟨⟨100, 50⟩, rfl, by decide⟩)⟩


/-! ## Runs -/

theorem sameConfig_refl (a : Window) : a.sameConfig a :=
  ⟨rfl, rfl, rfl, rfl, rfl, rfl, rfl, rfl, rfl, rfl, rfl⟩

theorem sameConfig_trans {a b c : Window} (h1 : a.sameConfig b) (h2 : b.sameConfig c) :
    a.sameConfig c := by
  obtain ⟨a1, a2, a3, a4, a5, a6, a7, a8, a9, a10, a11⟩ := h1
  obtain ⟨b1, b2, b3, b4, b5, b6, b7, b8, b9, b10, b11⟩ := h2
  exact ⟨a1.trans b1, a2.trans b2, a3.trans b3, a4.trans b4, a5.trans b5, a6.trans b6,
    a7.trans b7, a8.trans b8, a9.trans b9, a10.trans b10, a11.trans b11⟩

theorem renderDrag_sameConfig (w : Window) (x y : Int) : (w.renderDrag x y).sameConfig w := by
  unfold Window.renderDrag
  split_ifs <;> exact sameConfig_refl _

theorem renderResizeWidth_sameConfig (w : Window) (x : Int) :
    (w.renderResizeWidth x).sameConfig w := by
  unfold Window.renderResizeWidth
  split_ifs <;> exact sameConfig_refl _

theorem renderResizeHeight_sameConfig (w : Window) (y : Int) :
    (w.renderResizeHeight y).sameConfig w := by
  unfold Window.renderResizeHeight
  split_ifs <;> exact sameConfig_refl _

theorem renderResize_sameConfig (w : Window) (x y : Int) :
    (w.renderResize x y).sameConfig w := by
  unfold Window.renderResize
  split_ifs
  · exact sameConfig_trans (renderResizeHeight_sameConfig _ _) (renderResizeWidth_sameConfig _ _)
  · exact sameConfig_refl _
  · exact sameConfig_refl _

theorem renderHover_sameConfig (w : Window) (x y : Int) (a : Bool) :
    (w.renderHover x y a).1.sameConfig w := by
  simp only [Window.renderHover]
  split_ifs <;> exact sameConfig_refl _

theorem Render_sameConfig (w : Window) (x y : Int) (a : Bool) :
    (w.Render x y a).1.sameConfig w := by
  have h1 := renderHover_sameConfig ((w.renderDrag x y).renderResize x y) x y a
  have h2 := sameConfig_trans h1
    (sameConfig_trans (renderResize_sameConfig _ x y) (renderDrag_sameConfig w x y))
  exact h2

theorem step_sameConfig (w : Window) (i : Input) : (step w i).1.sameConfig w := by
  cases i with
  | titleBarPressed x y =>
    simp only [step, Window.titleBarPressed]; split_ifs <;> exact sameConfig_refl _
  | titleBarReleased =>
    simp only [step, Window.titleBarReleased]; split_ifs <;> exact sameConfig_refl _
  | contentsPressed x y =>
    simp only [step, Window.contentsPressed]; split_ifs <;> exact sameConfig_refl _
  | contentsReleased =>
    simp only [step, Window.contentsReleased]; split_ifs <;> exact sameConfig_refl _
  | containerReleased inside =>
    simp only [step, Window.containerReleased]
    cases w.closeFunc <;> simp only [] <;> (try split_ifs) <;> exact sameConfig_refl _
  | Render x y a => exact Render_sameConfig w x y a
  | SetLocation rect => exact sameConfig_refl _
  | RequestRelayout => exact sameConfig_refl _
  | SetCloseFunction close => exact sameConfig_refl _
  | Close =>
    simp only [step, Window.Close]
    cases w.closeFunc <;> exact sameConfig_refl _

theorem run_nil (w : Window) : run w [] = (w, []) := rfl

theorem run_cons (w : Window) (i : Input) (is : List Input) :
    run w (i :: is) = ((run (step w i).1 is).1, (step w i).2 ++ (run (step w i).1 is).2) := rfl

theorem run_append (w : Window) (as bs : List Input) :
    run w (as ++ bs) = ((run (run w as).1 bs).1, (run w as).2 ++ (run (run w as).1 bs).2) := by
  induction as generalizing w with
  | nil => simp [run_nil]
  | cons i is ih => simp [run_cons, ih, List.append_assoc]

theorem run_sameConfig (w : Window) (is : List Input) : (run w is).1.sameConfig w := by
  induction is generalizing w with
  | nil => exact sameConfig_refl _
  | cons i is ih =>
    rw [run_cons]
    exact sameConfig_trans (ih _) (step_sameConfig w i)


/-! ## Construction -/

theorem apply_flags (o : WindowOpt) (w : Window) :
    (o.apply w).dragging = w.dragging ∧ (o.apply w).resizing = w.resizing ∧
    (o.apply w).resizingWidth = w.resizingWidth ∧ (o.apply w).resizingHeight = w.resizingHeight ∧
    (o.apply w).titleBarHandlers = w.titleBarHandlers ∧
    (o.apply w).contentsHandlers = w.contentsHandlers ∧
    (o.apply w).containerHandler = w.containerHandler ∧
    (o.apply w).container = w.container := by
  cases o <;> exact ⟨rfl, rfl, rfl, rfl, rfl, rfl, rfl, rfl⟩

theorem applyOpts_flags (opts : List WindowOpt) (w : Window) :
    (applyOpts opts w).dragging = w.dragging ∧ (applyOpts opts w).resizing = w.resizing ∧
    (applyOpts opts w).resizingWidth = w.resizingWidth ∧
    (applyOpts opts w).resizingHeight = w.resizingHeight ∧
    (applyOpts opts w).titleBarHandlers = w.titleBarHandlers ∧
    (applyOpts opts w).contentsHandlers = w.contentsHandlers ∧
    (applyOpts opts w).containerHandler = w.containerHandler ∧
    (applyOpts opts w).container = w.container := by
  induction opts generalizing w with
  | nil => exact ⟨rfl, rfl, rfl, rfl, rfl, rfl, rfl, rfl⟩
  | cons o os ih =>
    obtain ⟨a1, a2, a3, a4, a5, a6, a7, a8⟩ := apply_flags o w
    obtain ⟨b1, b2, b3, b4, b5, b6, b7, b8⟩ := ih (o.apply w)
    exact ⟨b1.trans a1, b2.trans a2, b3.trans a3, b4.trans a4, b5.trans a5, b6.trans a6,
      b7.trans a7, b8.trans a8⟩

theorem composeLayout_eq (w w1 : Window) (h : composeLayout w = some w1) :
    w.Contents.isSome = true ∧
    ∃ tb c, tb.isSome = w.TitleBar.isSome ∧
      w1 = { w with TitleBar := tb, container := c,
                    titleBarHandlers := w.titleBarHandlers || (w.TitleBar.isSome && w.Draggable) } := by
  obtain ⟨f1, f2, f3, Contents, TitleBar, Draggable, f7, f8, f9, f10, f11, f12, f13, f14, f15,
    f16, f17, f18, f19, f20, f21, f22, f23⟩ := w
  cases Contents with
  | none =>
    cases TitleBar <;> cases Draggable <;> simp [composeLayout, Container.AddChild] at h
  | some c0 =>
    refine ⟨rfl, w1.TitleBar, w1.container, ?_⟩
    cases TitleBar with
    | none =>
      simp only [composeLayout, Container.AddChild, Option.some.injEq] at h
      subst h
      simp
    | some tb =>
      cases Draggable
      · simp only [composeLayout, Container.AddChild, Option.some.injEq, Bool.false_eq_true,
          if_false] at h
        subst h
        simp
      · simp only [composeLayout, Container.AddChild, Option.some.injEq, if_true] at h
        subst h
        simp

theorem composeLayout_isSome (w : Window) :
    (composeLayout w).isSome = w.Contents.isSome := by
  cases hc : w.Contents <;> cases ht : w.TitleBar <;> cases hd : w.Draggable <;>
    simp [composeLayout, hc, ht, hd, Container.AddChild]

theorem registerResize_eq (w w1 : Window) (h : registerResize w = some w1) :
    w1 = { w with contentsHandlers := w.contentsHandlers || w.Resizeable } := by
  obtain ⟨f1, f2, f3, Contents, f5, f6, Resizeable, f8, f9, f10, f11, f12, f13, f14, f15,
    f16, f17, f18, f19, f20, f21, f22, f23⟩ := w
  cases Resizeable
  · simp only [registerResize, Bool.false_eq_true, if_false, Option.some.injEq] at h
    rw [← h]; simp
  · cases Contents
    · simp [registerResize] at h
    · simp only [registerResize, if_true, Option.some.injEq] at h
      rw [← h]; simp

theorem registerResize_isSome (w : Window) (h : w.Contents.isSome = true) :
    (registerResize w).isSome = true := by
  unfold registerResize
  cases hc : w.Contents with
  | none => rw [hc] at h; cases h
  | some c => split_ifs <;> rfl

theorem registerCloseOnClick_eq (w : Window) :
    registerCloseOnClick w = { w with containerHandler := w.containerHandler || w.closeOnClick } := by
  obtain ⟨f1, f2, f3, f4, f5, f6, f7, f8, f9, closeOnClick, f11, f12, f13, f14, f15,
    f16, f17, f18, f19, f20, f21, f22, f23⟩ := w
  cases closeOnClick <;> simp [registerCloseOnClick]

theorem foldl_run_eq (fs : List Deferred) (w : Window) :
    fs.foldl (fun w f => f.run w) w =
      { w with container := (fs.foldl (fun w f => f.run w) w).container } := by
  induction fs generalizing w with
  | nil => rfl
  | cons f fs ih =>
    cases f with
    | containerSetLocation rect =>
      exact ih { w with container := w.container.SetLocation rect }

theorem MultiOnce_Do_eq (w : Window) :
    ∃ c i, MultiOnce.Do w = { w with container := c, init := i } := by
  unfold MultiOnce.Do
  split_ifs
  · exact ⟨w.container, w.init, rfl⟩
  · obtain ⟨c, hc⟩ : ∃ c, w.init.fs.foldl (fun w f => f.run w) w = { w with container := c } :=
      ⟨_, foldl_run_eq _ _⟩
    simp only [hc]
    exact ⟨c, _, rfl⟩

/-- The window `NewWindow` returns: the configured window with the title bar
prepared, the container created, the handlers registered. -/
theorem NewWindow_eq (opts : List WindowOpt) (w : Window) (h : NewWindow opts = some w) :
    (applyOpts opts zeroWindow).Contents.isSome = true ∧
    ∃ tb c i, tb.isSome = (applyOpts opts zeroWindow).TitleBar.isSome ∧
      w = { applyOpts opts zeroWindow with
              TitleBar := tb, container := c, init := i,
              titleBarHandlers :=
                (applyOpts opts zeroWindow).TitleBar.isSome && (applyOpts opts zeroWindow).Draggable,
              contentsHandlers := (applyOpts opts zeroWindow).Resizeable,
              containerHandler := (applyOpts opts zeroWindow).closeOnClick } := by
  unfold NewWindow at h
  obtain ⟨f1, f2, f3, f4, f5, f6, f7, f8⟩ := applyOpts_flags opts zeroWindow
  cases h1 : composeLayout (applyOpts opts zeroWindow) with
  | none => simp [h1] at h
  | some w1 =>
    simp only [h1] at h
    obtain ⟨hc, tb, c, htb, e1⟩ := composeLayout_eq _ _ h1
    cases h2 : registerResize w1 with
    | none => simp [h2] at h
    | some w2 =>
      simp only [h2] at h
      have e2 := registerResize_eq _ _ h2
      simp only [Option.some.injEq] at h
      obtain ⟨c3, i3, e3⟩ := MultiOnce_Do_eq (registerCloseOnClick w2)
      rw [e3, registerCloseOnClick_eq] at h
      refine ⟨hc, tb, c3, i3, htb, ?_⟩
      subst e1
      subst e2
      subst h
      have g5 : (applyOpts opts zeroWindow).titleBarHandlers = false := f5
      have g6 : (applyOpts opts zeroWindow).contentsHandlers = false := f6
      have g7 : (applyOpts opts zeroWindow).containerHandler = false := f7
      simp [g5, g6, g7]

theorem NewWindow_wellFormed (opts : List WindowOpt) (w : Window) (h : NewWindow opts = some w) :
    w.wellFormed := by
  obtain ⟨f1, f2, f3, f4, f5, f6, f7, f8⟩ := applyOpts_flags opts zeroWindow
  obtain ⟨hc, tb, c, i, htb, e⟩ := NewWindow_eq opts w h
  have d1 : w.dragging = false := by rw [e]; exact f1
  have d2 : w.resizing = false := by rw [e]; exact f2
  have d3 : w.resizingWidth = false := by rw [e]; exact f3
  have d4 : w.resizingHeight = false := by rw [e]; exact f4
  have d5 : w.titleBarHandlers = (w.TitleBar.isSome && w.Draggable) := by
    rw [e]; simp [htb]
  have d6 : w.contentsHandlers = w.Resizeable := by rw [e]
  refine ⟨?_, ?_, d5, d6, ?_, ?_⟩
  · intro hd; rw [d1] at hd; cases hd
  · intro hd; rw [d2] at hd; cases hd
  · intro hd; rw [d3, d4] at hd; simp at hd
  · intro hd; rw [d3] at hd; simp at hd


/-! ## Frames -/

theorem sameFlags_refl (a : Window) : a.sameFlags a := ⟨rfl, rfl, rfl, rfl, rfl, rfl⟩

theorem sameFlags_trans {a b c : Window} (h1 : a.sameFlags b) (h2 : b.sameFlags c) :
    a.sameFlags c := by
  obtain ⟨a1, a2, a3, a4, a5, a6⟩ := h1
  obtain ⟨b1, b2, b3, b4, b5, b6⟩ := h2
  exact ⟨a1.trans b1, a2.trans b2, a3.trans b3, a4.trans b4, a5.trans b5, a6.trans b6⟩

theorem renderDrag_sameFlags (w : Window) (x y : Int) : (w.renderDrag x y).sameFlags w := by
  unfold Window.renderDrag
  split_ifs <;> exact sameFlags_refl _

theorem renderResizeWidth_sameFlags (w : Window) (x : Int) :
    (w.renderResizeWidth x).sameFlags w ∧ (w.renderResizeWidth x).startingPoint = w.startingPoint := by
  unfold Window.renderResizeWidth
  split_ifs <;> exact ⟨sameFlags_refl _, rfl⟩

theorem renderResizeHeight_sameFlags (w : Window) (y : Int) :
    (w.renderResizeHeight y).sameFlags w ∧
      (w.renderResizeHeight y).startingPoint = w.startingPoint := by
  unfold Window.renderResizeHeight
  split_ifs <;> exact ⟨sameFlags_refl _, rfl⟩

theorem renderResize_sameFlags (w : Window) (x y : Int) :
    (w.renderResize x y).sameFlags w ∧ (w.renderResize x y).startingPoint = w.startingPoint := by
  unfold Window.renderResize
  split_ifs
  · exact ⟨sameFlags_trans (renderResizeHeight_sameFlags _ _).1 (renderResizeWidth_sameFlags _ _).1,
      (renderResizeHeight_sameFlags _ _).2.trans (renderResizeWidth_sameFlags _ _).2⟩
  · exact ⟨sameFlags_refl _, rfl⟩
  · exact ⟨sameFlags_refl _, rfl⟩

/-- The hover test touches the two hover flags only, and only on a resizeable
window, where it never leaves both set; it fires nothing but a cursor shape. -/
theorem renderHover_spec (w : Window) (x y : Int) (a : Bool) :
    (w.renderHover x y a).1.dragging = w.dragging ∧
    (w.renderHover x y a).1.resizing = w.resizing ∧
    (w.renderHover x y a).1.startingPoint = w.startingPoint ∧
    (w.renderHover x y a).1.originalSize = w.originalSize ∧
    (w.renderHover x y a).1.container = w.container ∧
    (w.renderHover x y a).1.closeFunc = w.closeFunc ∧
    (w.Resizeable = false → (w.renderHover x y a).1 = w) ∧
    (w.Resizeable = true → ¬ ((w.renderHover x y a).1.resizingWidth = true ∧
      (w.renderHover x y a).1.resizingHeight = true)) ∧
    moveEvents (w.renderHover x y a).2 = [] ∧ resizeEvents (w.renderHover x y a).2 = [] := by
  simp only [Window.renderHover]
  split_ifs <;> simp_all [moveEvents, resizeEvents]

theorem Render_fst (w : Window) (x y : Int) (a : Bool) :
    (w.Render x y a).1 =
      { (((w.renderDrag x y).renderResize x y).renderHover x y a).1 with
        container := (((w.renderDrag x y).renderResize x y).renderHover x y a).1.container.Render } :=
  rfl

theorem Render_snd (w : Window) (x y : Int) (a : Bool) :
    (w.Render x y a).2 = (((w.renderDrag x y).renderResize x y).renderHover x y a).2 := rfl

/-- A frame keeps the two gesture flags, the gesture-start size and the close
function, fires no completion event, and leaves the rectangle as the drag and
resize blocks left it. -/
theorem Render_spec (w : Window) (x y : Int) (a : Bool) :
    (w.Render x y a).1.dragging = w.dragging ∧
    (w.Render x y a).1.resizing = w.resizing ∧
    (w.Render x y a).1.originalSize = w.originalSize ∧
    (w.Render x y a).1.closeFunc = w.closeFunc ∧
    (w.Render x y a).1.startingPoint = (w.renderDrag x y).startingPoint ∧
    (w.Render x y a).1.container.Rect = ((w.renderDrag x y).renderResize x y).container.Rect ∧
    moveEvents (w.Render x y a).2 = [] ∧ resizeEvents (w.Render x y a).2 = [] := by
  obtain ⟨h1, h2, h3, h4, h5, h6, -, -, h9, h10⟩ :=
    renderHover_spec ((w.renderDrag x y).renderResize x y) x y a
  obtain ⟨⟨r1, r2, r3, r4, r5, r6⟩, r7⟩ := renderResize_sameFlags (w.renderDrag x y) x y
  obtain ⟨d1, d2, d3, d4, d5, d6⟩ := renderDrag_sameFlags w x y
  rw [Render_snd, Render_fst]
  refine ⟨?_, ?_, ?_, ?_, ?_, ?_, h9, h10⟩
  · exact h1.trans (r1.trans d1)
  · exact h2.trans (r2.trans d2)
  · exact h4.trans (r5.trans d5)
  · exact h6.trans (r6.trans d6)
  · exact h3.trans r7
  · show (((w.renderDrag x y).renderResize x y).renderHover x y a).1.container.Render.Rect = _
    rw [h5]; rfl

/-- The hover flags after a frame: untouched on a window that is not
resizeable, never both set on a resizeable one. -/
theorem Render_hover (w : Window) (x y : Int) (a : Bool) :
    (w.Resizeable = false → (w.Render x y a).1.resizingWidth = w.resizingWidth ∧
      (w.Render x y a).1.resizingHeight = w.resizingHeight) ∧
    (w.Resizeable = true → ¬ ((w.Render x y a).1.resizingWidth = true ∧
      (w.Render x y a).1.resizingHeight = true)) := by
  obtain ⟨-, -, -, -, -, -, h7, h8, -, -⟩ :=
    renderHover_spec ((w.renderDrag x y).renderResize x y) x y a
  obtain ⟨⟨r1, r2, r3, r4, r5, r6⟩, r7⟩ := renderResize_sameFlags (w.renderDrag x y) x y
  obtain ⟨d1, d2, d3, d4, d5, d6⟩ := renderDrag_sameFlags w x y
  have hR : ((w.renderDrag x y).renderResize x y).Resizeable = w.Resizeable :=
    (sameConfig_trans (renderResize_sameConfig _ x y) (renderDrag_sameConfig w x y)).2.2.2.1
  rw [hR] at h7 h8
  rw [Render_fst]
  constructor
  · intro h
    have e := h7 h
    simp only [e]
    exact ⟨r3.trans d3, r4.trans d4⟩
  · intro h
    exact h8 h

theorem step_wellFormed (w : Window) (i : Input) (h : w.wellFormed) : (step w i).1.wellFormed := by
  obtain ⟨h1, h2, h3, h4, h5, h6⟩ := h
  cases i with
  | titleBarPressed x y =>
    simp only [step, Window.titleBarPressed]
    split_ifs with ht
    · exact ⟨fun _ => ht, h2, h3, h4, h5, h6⟩
    · exact ⟨h1, h2, h3, h4, h5, h6⟩
  | titleBarReleased =>
    simp only [step, Window.titleBarReleased]
    split_ifs with ht hd
    · exact ⟨fun _ => ht, h2, h3, h4, h5, h6⟩
    · exact ⟨h1, h2, h3, h4, h5, h6⟩
    · exact ⟨h1, h2, h3, h4, h5, h6⟩
  | contentsPressed x y =>
    simp only [step, Window.contentsPressed]
    split_ifs with ht
    · exact ⟨h1, fun _ => ht, h3, h4, h5, h6⟩
    · exact ⟨h1, h2, h3, h4, h5, h6⟩
  | contentsReleased =>
    simp only [step, Window.contentsReleased]
    split_ifs with ht hd
    · exact ⟨h1, fun _ => ht, h3, h4, h5, h6⟩
    · exact ⟨h1, h2, h3, h4, h5, h6⟩
    · exact ⟨h1, h2, h3, h4, h5, h6⟩
  | containerReleased inside =>
    simp only [step, Window.containerReleased]
    cases w.closeFunc <;> simp only [] <;> (try split_ifs) <;> exact ⟨h1, h2, h3, h4, h5, h6⟩
  | Render x y a =>
    obtain ⟨c1, c2, c3, c4, c5, c6, c7, c8, c9, c10, c11⟩ := Render_sameConfig w x y a
    obtain ⟨s1, s2, -, -, -, -, -, -⟩ := Render_spec w x y a
    obtain ⟨v1, v2⟩ := Render_hover w x y a
    simp only [step]
    refine ⟨?_, ?_, ?_, ?_, ?_, ?_⟩
    · rw [s1, c9]; exact h1
    · rw [s2, c10]; exact h2
    · rw [c9, c5, c3]; exact h3
    · rw [c10, c4]; exact h4
    · rw [c4]
      intro hh
      cases hr : w.Resizeable
      · obtain ⟨e1, e2⟩ := v1 hr
        rw [e1, e2] at hh
        rw [← hr]; exact h5 hh
      · rfl
    · cases hr : w.Resizeable
      · obtain ⟨e1, e2⟩ := v1 hr
        rw [e1, e2]; exact h6
      · exact v2 hr
  | SetLocation rect => exact ⟨h1, h2, h3, h4, h5, h6⟩
  | RequestRelayout => exact ⟨h1, h2, h3, h4, h5, h6⟩
  | SetCloseFunction close => exact ⟨h1, h2, h3, h4, h5, h6⟩
  | Close =>
    simp only [step, Window.Close]
    cases w.closeFunc <;> exact ⟨h1, h2, h3, h4, h5, h6⟩

theorem run_wellFormed (w : Window) (is : List Input) (h : w.wellFormed) :
    (run w is).1.wellFormed := by
  induction is generalizing w with
  | nil => exact h
  | cons i is ih =>
    rw [run_cons]
    exact ih _ (step_wellFormed w i h)

theorem Reachable_wellFormed (opts : List WindowOpt) (s : Window) (h : Reachable opts s) :
    s.wellFormed := by
  obtain ⟨w0, is, h0, rfl⟩ := h
  exact run_wellFormed w0 is (NewWindow_wellFormed opts w0 h0)


/-! ## Gestures -/

theorem clamp_conforms (w : Window) (R : Rectangle) (h : w.conforms R) :
    clampMax w.MaxSize (clampMin w.MinSize R) = R := by
  obtain ⟨h1, h2⟩ := h
  have e1 : clampMin w.MinSize R = R := by
    cases hm : w.MinSize with
    | none => rfl
    | some m =>
      obtain ⟨a, b⟩ := h1 m hm
      simp only [clampMin, if_neg (show ¬ R.Dx < m.X by omega),
        if_neg (show ¬ R.Dy < m.Y by omega)]
  rw [e1]
  cases hM : w.MaxSize with
  | none => rfl
  | some M =>
    obtain ⟨a, b⟩ := h2 M hM
    simp only [clampMax, if_neg (show ¬ R.Dx > M.X by omega),
      if_neg (show ¬ R.Dy > M.Y by omega)]

theorem Add_Dx (R : Rectangle) (p : Point) : (R.Add p).Dx = R.Dx := by
  simp only [Rectangle.Add, Rectangle.Dx]; omega

theorem Add_Dy (R : Rectangle) (p : Point) : (R.Add p).Dy = R.Dy := by
  simp only [Rectangle.Add, Rectangle.Dy]; omega

theorem Add_Add (R : Rectangle) (a b c d e f : Int) (h1 : a + c = e) (h2 : b + d = f) :
    (R.Add ⟨a, b⟩).Add ⟨c, d⟩ = R.Add ⟨e, f⟩ := by
  subst h1; subst h2
  simp only [Rectangle.Add, Rectangle.mk.injEq, Point.mk.injEq]
  omega

theorem Add_zero (R : Rectangle) (a b : Int) (h1 : a = 0) (h2 : b = 0) : R.Add ⟨a, b⟩ = R := by
  subst h1; subst h2
  obtain ⟨⟨a, b⟩, ⟨c, d⟩⟩ := R
  simp [Rectangle.Add]

/-- The drag block on a dragging window: the pointer is recorded, and when it
moved the rectangle is translated by the move and clamped. -/
theorem renderDrag_dragging (w : Window) (x y : Int) (h : w.dragging = true) :
    (w.renderDrag x y).startingPoint = ⟨x, y⟩ ∧
    (w.renderDrag x y).container.Rect =
      if w.startingPoint.X ≠ x ∨ w.startingPoint.Y ≠ y then
        clampMax w.MaxSize (clampMin w.MinSize
          (w.container.Rect.Add ⟨x - w.startingPoint.X, y - w.startingPoint.Y⟩))
      else w.container.Rect := by
  unfold Window.renderDrag
  rw [if_pos h]
  split_ifs with hp
  · exact ⟨rfl, rfl⟩
  · have hx : w.startingPoint.X = x := by
      by_contra hc; exact hp (Or.inl hc)
    have hy : w.startingPoint.Y = y := by
      by_contra hc; exact hp (Or.inr hc)
    refine ⟨?_, rfl⟩
    subst hx; subst hy; rfl

theorem renderDrag_idle (w : Window) (x y : Int) (h : w.dragging = false) :
    w.renderDrag x y = w := by
  unfold Window.renderDrag
  rw [if_neg (by simp [h])]

theorem renderResize_same (w : Window) (x y : Int) (h : w.startingPoint = ⟨x, y⟩) :
    w.renderResize x y = w := by
  unfold Window.renderResize
  split_ifs with h1 h2
  · rw [h] at h2; simp at h2
  · rfl
  · rfl

/-- A frame on a dragging window: only the drag block acts on the rectangle. -/
theorem Render_dragging (w : Window) (x y : Int) (a : Bool) (h : w.dragging = true) :
    (w.Render x y a).1.startingPoint = ⟨x, y⟩ ∧
    (w.Render x y a).1.container.Rect =
      if w.startingPoint.X ≠ x ∨ w.startingPoint.Y ≠ y then
        clampMax w.MaxSize (clampMin w.MinSize
          (w.container.Rect.Add ⟨x - w.startingPoint.X, y - w.startingPoint.Y⟩))
      else w.container.Rect := by
  obtain ⟨-, -, -, -, s5, s6, -, -⟩ := Render_spec w x y a
  obtain ⟨d1, d2⟩ := renderDrag_dragging w x y h
  rw [s5, s6, renderResize_same _ x y d1]
  exact ⟨d1, d2⟩

theorem clampMin_Add (mn : Option Point) (R : Rectangle) (p : Point) :
    clampMin mn (R.Add p) = (clampMin mn R).Add p := by
  obtain ⟨⟨a, b⟩, ⟨c, d⟩⟩ := R
  obtain ⟨px, py⟩ := p
  cases mn with
  | none => rfl
  | some m =>
    obtain ⟨m1, m2⟩ := m
    simp only [clampMin, Rectangle.Add, Rectangle.Dx, Rectangle.Dy]
    split_ifs <;> (try dsimp only at *) <;>
      (try simp only [Rectangle.mk.injEq, Point.mk.injEq, true_and, and_true]) <;> omega

theorem clampMax_Add (mx : Option Point) (R : Rectangle) (p : Point) :
    clampMax mx (R.Add p) = (clampMax mx R).Add p := by
  obtain ⟨⟨a, b⟩, ⟨c, d⟩⟩ := R
  obtain ⟨px, py⟩ := p
  cases mx with
  | none => rfl
  | some m =>
    obtain ⟨m1, m2⟩ := m
    simp only [clampMax, Rectangle.Add, Rectangle.Dx, Rectangle.Dy]
    split_ifs <;> (try dsimp only at *) <;>
      (try simp only [Rectangle.mk.injEq, Point.mk.injEq, true_and, and_true]) <;> omega

/-- Clamping commutes with translation: a rectangle the clamping leaves as it
is stays so when translated. -/
theorem clamp_Add_fixed (mn mx : Option Point) (R : Rectangle) (p : Point)
    (h : clampMax mx (clampMin mn R) = R) : clampMax mx (clampMin mn (R.Add p)) = R.Add p := by
  rw [clampMin_Add, clampMax_Add, h]

/-- A frame on a dragging window whose rectangle the clamping leaves as it is
translates the rectangle by the move of the pointer. -/
theorem Render_drag_fixed (w : Window) (x y : Int) (a : Bool) (h : w.dragging = true)
    (hc : clampMax w.MaxSize (clampMin w.MinSize w.container.Rect) = w.container.Rect) :
    (w.Render x y a).1.container.Rect =
      w.container.Rect.Add ⟨x - w.startingPoint.X, y - w.startingPoint.Y⟩ := by
  obtain ⟨-, d2⟩ := Render_dragging w x y a h
  rw [d2]
  split_ifs with hp
  · exact clamp_Add_fixed _ _ _ _ hc
  · have hx : w.startingPoint.X = x := by
      by_contra hc; exact hp (Or.inl hc)
    have hy : w.startingPoint.Y = y := by
      by_contra hc; exact hp (Or.inr hc)
    rw [Add_zero] <;> omega

theorem moveEvents_append (a b : List Effect) : moveEvents (a ++ b) = moveEvents a ++ moveEvents b := by
  simp [moveEvents, List.filterMap_append]

theorem resizeEvents_append (a b : List Effect) :
    resizeEvents (a ++ b) = resizeEvents a ++ resizeEvents b := by
  simp [resizeEvents, List.filterMap_append]

theorem lastPointer_cons (p0 : Point) (p : Int × Int × Bool) (ps : List (Int × Int × Bool)) :
    lastPointer p0 (p :: ps) = lastPointer ⟨p.1, p.2.1⟩ ps := rfl

theorem frames_cons (p : Int × Int × Bool) (ps : List (Int × Int × Bool)) :
    frames (p :: ps) = Input.Render p.1 p.2.1 p.2.2 :: frames ps := rfl

/-- Frames of a drag on a window whose rectangle the clamping leaves as it is:
the rectangle follows the pointer, the drag goes on, nothing is fired. -/
theorem run_frames_dragging (ps : List (Int × Int × Bool)) (w : Window)
    (h : w.dragging = true)
    (hc : clampMax w.MaxSize (clampMin w.MinSize w.container.Rect) = w.container.Rect) :
    (run w (frames ps)).1.dragging = true ∧
    (run w (frames ps)).1.container.Rect =
      w.container.Rect.Add ⟨(lastPointer w.startingPoint ps).X - w.startingPoint.X,
        (lastPointer w.startingPoint ps).Y - w.startingPoint.Y⟩ ∧
    moveEvents (run w (frames ps)).2 = [] := by
  induction ps generalizing w with
  | nil =>
    refine ⟨h, ?_, rfl⟩
    show w.container.Rect = _
    rw [Add_zero] <;> simp [lastPointer]
  | cons p ps ih =>
    obtain ⟨s1, -, -, -, -, -, s7, -⟩ := Render_spec w p.1 p.2.1 p.2.2
    obtain ⟨d1, -⟩ := Render_dragging w p.1 p.2.1 p.2.2 h
    have d2 := Render_drag_fixed w p.1 p.2.1 p.2.2 h hc
    obtain ⟨c1, c2, -⟩ := Render_sameConfig w p.1 p.2.1 p.2.2
    have hc1 : clampMax (w.Render p.1 p.2.1 p.2.2).1.MaxSize
        (clampMin (w.Render p.1 p.2.1 p.2.2).1.MinSize (w.Render p.1 p.2.1 p.2.2).1.container.Rect)
          = (w.Render p.1 p.2.1 p.2.2).1.container.Rect := by
      rw [c1, c2, d2]
      exact clamp_Add_fixed _ _ _ _ hc
    obtain ⟨i1, i2, i3⟩ := ih (w.Render p.1 p.2.1 p.2.2).1 (s1.trans h) hc1
    rw [frames_cons, run_cons, lastPointer_cons]
    simp only [step]
    refine ⟨i1, ?_, ?_⟩
    · rw [i2, d1, d2]
      apply Add_Add <;> simp only [] <;> omega
    · rw [moveEvents_append, s7, i3]; rfl


theorem exampleWindow_reachable (is : List Input) :
    Reachable exampleOpts (run exampleWindow is).1 :=
  ⟨exampleWindow, is, by decide, rfl⟩

/-- C4 (as stated, refuted): a draggable window with `MinSize (100,50)` placed
at `(0,0)-(10,10)`, its title bar pressed at `(10,10)`, one frame at `(15,12)`,
the title bar released: the window and the move event carry `(5,2)-(105,52)`,
not the rectangle `(5,2)-(15,12)` that is `(0,0)-(10,10)` translated by `(5,2)`. -/
theorem drag_translation_counterexample :
    (NewWindow [WindowOpt.Contents (some NewContainer), WindowOpt.TitleBar (some NewContainer) 20,
        WindowOpt.Draggable, WindowOpt.MinSize 100 50,
        WindowOpt.Location ⟨⟨0, 0⟩, ⟨10, 10⟩⟩]).map
      (fun w =>
        (w.container.Rect,
         (run w [Input.titleBarPressed 10 10, Input.Render 15 12 true,
            Input.titleBarReleased]).1.container.Rect,
         moveEvents (run w [Input.titleBarPressed 10 10, Input.Render 15 12 true,
            Input.titleBarReleased]).2))
      = some (⟨⟨0, 0⟩, ⟨10, 10⟩⟩, ⟨⟨5, 2⟩, ⟨105, 52⟩⟩, [⟨⟨5, 2⟩, ⟨105, 52⟩⟩])
    ∧ Rectangle.Add ⟨⟨0, 0⟩, ⟨10, 10⟩⟩ ⟨15 - 10, 12 - 10⟩ ≠ ⟨⟨5, 2⟩, ⟨105, 52⟩⟩ := by
  decide

/-- C4 (amended): on a draggable window with a title bar whose rectangle `R`
is one `Window.SetLocation` leaves as it is (clamping `R` gives `R`), a
title-bar press at `(x0, y0)`, frames at any pointer samples and a title-bar
release leave the window at `R` translated by the last sample minus
`(x0, y0)`, and exactly one move event is fired, carrying that rectangle. -/
theorem drag_translation (opts : List WindowOpt) (w : Window) (x0 y0 : Int)
    (ps : List (Int × Int × Bool)) (hr : Reachable opts w)
    (ht : w.TitleBar.isSome = true) (hd : w.Draggable = true)
    (hc : (w.SetLocation w.container.Rect).container.Rect = w.container.Rect) :
    (run w (Input.titleBarPressed x0 y0 :: (frames ps ++ [Input.titleBarReleased]))).1.container.Rect =
      w.container.Rect.Add
        ⟨(lastPointer ⟨x0, y0⟩ ps).X - x0, (lastPointer ⟨x0, y0⟩ ps).Y - y0⟩ ∧
    moveEvents
        (run w (Input.titleBarPressed x0 y0 :: (frames ps ++ [Input.titleBarReleased]))).2 =
      [w.container.Rect.Add
        ⟨(lastPointer ⟨x0, y0⟩ ps).X - x0, (lastPointer ⟨x0, y0⟩ ps).Y - y0⟩] := by
  obtain ⟨-, -, h3, -, -, -⟩ := Reachable_wellFormed opts w hr
  have hh : w.titleBarHandlers = true := by rw [h3, ht, hd]; rfl
  have e0 : (step w (Input.titleBarPressed x0 y0)).1 =
      { w with startingPoint := ⟨x0, y0⟩, dragging := true } := by
    simp only [step, Window.titleBarPressed, hh, if_true]
  have f0 : (step w (Input.titleBarPressed x0 y0)).2 = [] := rfl
  rw [SetLocation_rect] at hc
  obtain ⟨i1, i2, i3⟩ := run_frames_dragging ps
    { w with startingPoint := ⟨x0, y0⟩, dragging := true } rfl hc
  have hh1 : (run { w with startingPoint := ⟨x0, y0⟩, dragging := true } (frames ps)).1.titleBarHandlers
      = true := by
    have := (run_sameConfig { w with startingPoint := ⟨x0, y0⟩, dragging := true } (frames ps)).2.2.2.2.2.2.2.2.1
    rw [this]; exact hh
  rw [run_cons, run_append, e0, f0]
  simp only [run_cons, run_nil, step, Window.titleBarReleased, hh1, i1, if_true, List.nil_append,
    List.append_nil, moveEvents_append, i3]
  exact ⟨i2, by rw [i2]; rfl⟩

/-- C4 (amended), at the example window `(0,0)-(200,100)`: press at `(10,10)`,
frames at `(15,12)` and `(20,20)`, release; the window and the one move event
carry `(10,10)-(210,110)`, the rectangle translated by `(10,10)`. -/
theorem drag_translation_witness :
    (run exampleWindow [Input.titleBarPressed 10 10, Input.Render 15 12 true,
        Input.Render 20 20 true, Input.titleBarReleased]).1.container.Rect
      = ⟨⟨10, 10⟩, ⟨210, 110⟩⟩ ∧
    moveEvents (run exampleWindow [Input.titleBarPressed 10 10, Input.Render 15 12 true,
        Input.Render 20 20 true, Input.titleBarReleased]).2 = [⟨⟨10, 10⟩, ⟨210, 110⟩⟩] :=
  drag_translation exampleOpts exampleWindow 10 10 [(15, 12, true), (20, 20, true)]
    (exampleWindow_reachable []) rfl rfl (by decide)


/-! ## Completion events -/

theorem step_moveEvents (s : Window) (i : Input) (h : i ≠ Input.titleBarReleased) :
    moveEvents (step s i).2 = [] := by
  cases i with
  | titleBarReleased => exact absurd rfl h
  | contentsReleased =>
    simp only [step, Window.contentsReleased]; split_ifs <;> rfl
  | containerReleased inside =>
    simp only [step, Window.containerReleased]
    cases s.closeFunc <;> simp only [] <;> (try split_ifs) <;> rfl
  | Render x y a => exact (Render_spec s x y a).2.2.2.2.2.2.1
  | Close =>
    simp only [step, Window.Close]
    cases s.closeFunc <;> rfl
  | _ => rfl

theorem step_resizeEvents (s : Window) (i : Input) (h : i ≠ Input.contentsReleased) :
    resizeEvents (step s i).2 = [] := by
  cases i with
  | contentsReleased => exact absurd rfl h
  | titleBarReleased =>
    simp only [step, Window.titleBarReleased]; split_ifs <;> rfl
  | containerReleased inside =>
    simp only [step, Window.containerReleased]
    cases s.closeFunc <;> simp only [] <;> (try split_ifs) <;> rfl
  | Render x y a => exact (Render_spec s x y a).2.2.2.2.2.2.2
  | Close =>
    simp only [step, Window.Close]
    cases s.closeFunc <;> rfl
  | _ => rfl

theorem step_idle_drag (s : Window) (i : Input) (hd : s.dragging = false)
    (hi : ∀ x y, i ≠ Input.titleBarPressed x y) :
    (step s i).1.dragging = false ∧ moveEvents (step s i).2 = [] := by
  cases i with
  | titleBarPressed x y => exact absurd rfl (hi x y)
  | titleBarReleased =>
    simp [step, Window.titleBarReleased, hd, moveEvents]
  | contentsPressed x y =>
    simp only [step, Window.contentsPressed]; split_ifs <;> exact ⟨hd, rfl⟩
  | contentsReleased =>
    simp only [step, Window.contentsReleased]; split_ifs <;> exact ⟨hd, rfl⟩
  | containerReleased inside =>
    simp only [step, Window.containerReleased]
    cases s.closeFunc <;> simp only [] <;> (try split_ifs) <;> exact ⟨hd, rfl⟩
  | Render x y a =>
    exact ⟨(Render_spec s x y a).1.trans hd, (Render_spec s x y a).2.2.2.2.2.2.1⟩
  | SetLocation rect => exact ⟨hd, rfl⟩
  | RequestRelayout => exact ⟨hd, rfl⟩
  | SetCloseFunction close => exact ⟨hd, rfl⟩
  | Close =>
    simp only [step, Window.Close]
    cases s.closeFunc <;> exact ⟨hd, rfl⟩

theorem step_idle_resize (s : Window) (i : Input) (hd : s.resizing = false)
    (hi : ∀ x y, i ≠ Input.contentsPressed x y) :
    (step s i).1.resizing = false ∧ resizeEvents (step s i).2 = [] := by
  cases i with
  | contentsPressed x y => exact absurd rfl (hi x y)
  | contentsReleased =>
    simp [step, Window.contentsReleased, hd, resizeEvents]
  | titleBarPressed x y =>
    simp only [step, Window.titleBarPressed]; split_ifs <;> exact ⟨hd, rfl⟩
  | titleBarReleased =>
    simp only [step, Window.titleBarReleased]; split_ifs <;> exact ⟨hd, rfl⟩
  | containerReleased inside =>
    simp only [step, Window.containerReleased]
    cases s.closeFunc <;> simp only [] <;> (try split_ifs) <;> exact ⟨hd, rfl⟩
  | Render x y a =>
    exact ⟨(Render_spec s x y a).2.1.trans hd, (Render_spec s x y a).2.2.2.2.2.2.2⟩
  | SetLocation rect => exact ⟨hd, rfl⟩
  | RequestRelayout => exact ⟨hd, rfl⟩
  | SetCloseFunction close => exact ⟨hd, rfl⟩
  | Close =>
    simp only [step, Window.Close]
    cases s.closeFunc <;> exact ⟨hd, rfl⟩

theorem run_idle_drag (is : List Input) (s : Window) (hd : s.dragging = false)
    (hi : ∀ x y, Input.titleBarPressed x y ∉ is) : moveEvents (run s is).2 = [] := by
  induction is generalizing s with
  | nil => rfl
  | cons i is ih =>
    have h1 : ∀ x y, i ≠ Input.titleBarPressed x y := by
      intro x y hc
      exact hi x y (by rw [hc]; exact List.mem_cons_self _ _)
    have h2 : ∀ x y, Input.titleBarPressed x y ∉ is := by
      intro x y hc
      exact hi x y (List.mem_cons_of_mem _ hc)
    obtain ⟨a, b⟩ := step_idle_drag s i hd h1
    rw [run_cons, moveEvents_append, b, ih _ a h2]
    rfl

theorem run_idle_resize (is : List Input) (s : Window) (hd : s.resizing = false)
    (hi : ∀ x y, Input.contentsPressed x y ∉ is) : resizeEvents (run s is).2 = [] := by
  induction is generalizing s with
  | nil => rfl
  | cons i is ih =>
    have h1 : ∀ x y, i ≠ Input.contentsPressed x y := by
      intro x y hc
      exact hi x y (by rw [hc]; exact List.mem_cons_self _ _)
    have h2 : ∀ x y, Input.contentsPressed x y ∉ is := by
      intro x y hc
      exact hi x y (List.mem_cons_of_mem _ hc)
    obtain ⟨a, b⟩ := step_idle_resize s i hd h1
    rw [run_cons, resizeEvents_append, b, ih _ a h2]
    rfl

theorem titleBarReleased_dragging (s : Window) : s.titleBarReleased.1.dragging = false ∨
    (s.titleBarHandlers = false ∧ s.titleBarReleased.1 = s) := by
  unfold Window.titleBarReleased
  cases hh : s.titleBarHandlers <;> cases hd : s.dragging <;> simp [hd]

theorem contentsReleased_resizing (s : Window) : s.contentsReleased.1.resizing = false ∨
    (s.contentsHandlers = false ∧ s.contentsReleased.1 = s) := by
  unfold Window.contentsReleased
  cases hh : s.contentsHandlers <;> cases hd : s.resizing <;> simp [hd]

/-- C5: in every state a constructed window reaches, no input but a title-bar
release fires `MoveEvent` and none but a contents release fires `ResizeEvent`
(a frame fires neither); a title-bar release fires `MoveEvent` once, with the
current rectangle, when dragging and not at all otherwise, and after it no
`MoveEvent` is fired until the title bar is pressed again; likewise for a
contents release, `ResizeEvent` and resizing. -/
theorem completion_events (opts : List WindowOpt) (s : Window) (hr : Reachable opts s) :
    (∀ x y a, moveEvents (s.Render x y a).2 = [] ∧ resizeEvents (s.Render x y a).2 = []) ∧
    (∀ i, i ≠ Input.titleBarReleased → moveEvents (step s i).2 = []) ∧
    (∀ i, i ≠ Input.contentsReleased → resizeEvents (step s i).2 = []) ∧
    moveEvents s.titleBarReleased.2 = (if s.dragging then [s.container.Rect] else []) ∧
    resizeEvents s.contentsReleased.2 = (if s.resizing then [s.container.Rect] else []) ∧
    (∀ is, (∀ x y, Input.titleBarPressed x y ∉ is) →
      moveEvents (run s.titleBarReleased.1 is).2 = []) ∧
    (∀ is, (∀ x y, Input.contentsPressed x y ∉ is) →
      resizeEvents (run s.contentsReleased.1 is).2 = []) := by
  obtain ⟨h1, h2, -, -, -, -⟩ := Reachable_wellFormed opts s hr
  refine ⟨?_, step_moveEvents s, step_resizeEvents s, ?_, ?_, ?_, ?_⟩
  · intro x y a
    exact ⟨(Render_spec s x y a).2.2.2.2.2.2.1, (Render_spec s x y a).2.2.2.2.2.2.2⟩
  · unfold Window.titleBarReleased
    cases hd : s.dragging
    · simp [moveEvents]
    · simp [moveEvents, h1 hd]
  · unfold Window.contentsReleased
    cases hd : s.resizing
    · simp [resizeEvents]
    · simp [resizeEvents, h2 hd]
  · intro is hi
    apply run_idle_drag _ _ _ hi
    rcases titleBarReleased_dragging s with h | ⟨h, e⟩
    · exact h
    · rw [e]
      cases hd : s.dragging
      · rfl
      · rw [h1 hd] at h; cases h
  · intro is hi
    apply run_idle_resize _ _ _ hi
    rcases contentsReleased_resizing s with h | ⟨h, e⟩
    · exact h
    · rw [e]
      cases hd : s.resizing
      · rfl
      · rw [h2 hd] at h; cases h

/-- C5 on the example window after a title-bar press at `(10,10)` and a frame
at `(20,20)`: the release fires one `MoveEvent` carrying `(10,10)-(210,110)`,
and a second release with a frame between fires none. -/
theorem completion_events_witness :
    moveEvents (run exampleWindow [Input.titleBarPressed 10 10,
        Input.Render 20 20 true]).1.titleBarReleased.2 = [⟨⟨10, 10⟩, ⟨210, 110⟩⟩] ∧
    moveEvents (run (run exampleWindow [Input.titleBarPressed 10 10,
        Input.Render 20 20 true]).1.titleBarReleased.1
          [Input.Render 30 30 true, Input.titleBarReleased]).2 = [] :=
  ⟨(completion_events exampleOpts _ (exampleWindow_reachable
      [Input.titleBarPressed 10 10, Input.Render 20 20 true])).2.2.2.1,
   (completion_events exampleOpts _ (exampleWindow_reachable
      [Input.titleBarPressed 10 10, Input.Render 20 20 true])).2.2.2.2.2.1
      [Input.Render 30 30 true, Input.titleBarReleased] (by intro x y h; simp at h)⟩


/-! ## Resizing -/

theorem SetLocation_Dx_bounds (w : Window) (R : Rectangle) (m M : Point)
    (hm : w.MinSize = some m) (hM : w.MaxSize = some M) :
    (w.SetLocation R).container.Rect.Dx =
      if (if R.Dx < m.X then m.X else R.Dx) > M.X then M.X
      else (if R.Dx < m.X then m.X else R.Dx) := by
  rw [SetLocation_Dx, hm, hM]

theorem renderResize_resizing (s : Window) (x y : Int) (hr : s.resizing = true)
    (hp : s.startingPoint.X ≠ x ∨ s.startingPoint.Y ≠ y) :
    s.renderResize x y = (s.renderResizeWidth x).renderResizeHeight y := by
  unfold Window.renderResize
  rw [if_pos hr, if_pos hp]

/-- The width block of a frame, when width-resize is selected: the width
becomes the clamped raw width. -/
theorem renderResizeWidth_Dx (t : Window) (x : Int) (m M : Point)
    (hm : t.MinSize = some m) (hM : t.MaxSize = some M) (hw : t.resizingWidth = true) :
    (t.renderResizeWidth x).container.Rect.Dx =
      if (if t.originalSize.X - (t.startingPoint.X - x) - t.container.Rect.Min.X < m.X then m.X
          else t.originalSize.X - (t.startingPoint.X - x) - t.container.Rect.Min.X) > M.X then M.X
      else (if t.originalSize.X - (t.startingPoint.X - x) - t.container.Rect.Min.X < m.X then m.X
          else t.originalSize.X - (t.startingPoint.X - x) - t.container.Rect.Min.X) := by
  unfold Window.renderResizeWidth
  rw [if_pos hw]
  exact SetLocation_Dx_bounds t _ m M hm hM

/-- The height block of a frame clamps the width once more when height-resize
is selected, and leaves it otherwise. -/
theorem renderResizeHeight_Dx (t : Window) (y : Int) (m M : Point)
    (hm : t.MinSize = some m) (hM : t.MaxSize = some M) :
    (t.renderResizeHeight y).container.Rect.Dx =
      if t.resizingHeight = true then
        (if (if t.container.Rect.Dx < m.X then m.X else t.container.Rect.Dx) > M.X then M.X
         else (if t.container.Rect.Dx < m.X then m.X else t.container.Rect.Dx))
      else t.container.Rect.Dx := by
  unfold Window.renderResizeHeight
  by_cases hh : t.resizingHeight = true
  · rw [if_pos hh, if_pos hh]
    exact SetLocation_Dx_bounds t _ m M hm hM
  · rw [if_neg hh, if_neg hh]

/-- C6 (as stated, refuted): on the example window, `MinSize (100,50)`,
`MaxSize (400,300)`, 200 wide, the right edge grabbed at `(198,50)` and the
pointer taken to `(348,50)`: the raw computed width 350 exceeds 300, and the
frame leaves the window 350 wide, not 300. -/
theorem resize_clamp_counterexample :
    ((run exampleWindow [Input.Render 198 50 true, Input.contentsPressed 198 50]).1.resizing,
     (run exampleWindow [Input.Render 198 50 true, Input.contentsPressed 198 50]).1.resizingWidth,
     (run exampleWindow [Input.Render 198 50 true, Input.contentsPressed 198 50]).1.container.Rect.Dx,
     (run exampleWindow [Input.Render 198 50 true, Input.contentsPressed 198 50,
        Input.Render 348 50 true]).1.container.Rect)
      = (true, true, 200, ⟨⟨0, 0⟩, ⟨350, 100⟩⟩)
    ∧ (300 : Int) < 200 - (198 - 348) - 0
    ∧ Rectangle.Dx ⟨⟨0, 0⟩, ⟨350, 100⟩⟩ ≠ 300 := by
  decide

/-- C6 (amended): with `MinSize (100,50)` and `MaxSize (400,300)`, on a window
that is not being dragged, with resizing set and width-resize selected, a frame
at a pointer other than the recorded gesture-start pointer: a raw computed
width (the gesture-start `Max.X` minus the pointer's way back to the
gesture-start pointer, minus `Min.X`) above 400 leaves the window exactly 400
wide, one below 100 leaves it exactly 100 wide, and one from 100 to 400 is
taken as it is. -/
theorem resize_width_clamp (s : Window) (x y : Int) (a : Bool)
    (hmin : s.MinSize = some ⟨100, 50⟩) (hmax : s.MaxSize = some ⟨400, 300⟩)
    (hd : s.dragging = false) (hr : s.resizing = true) (hw : s.resizingWidth = true)
    (hp : s.startingPoint.X ≠ x ∨ s.startingPoint.Y ≠ y) :
    (400 < s.originalSize.X - (s.startingPoint.X - x) - s.container.Rect.Min.X →
      (s.Render x y a).1.container.Rect.Dx = 400) ∧
    (s.originalSize.X - (s.startingPoint.X - x) - s.container.Rect.Min.X < 100 →
      (s.Render x y a).1.container.Rect.Dx = 100) ∧
    (100 ≤ s.originalSize.X - (s.startingPoint.X - x) - s.container.Rect.Min.X →
      s.originalSize.X - (s.startingPoint.X - x) - s.container.Rect.Min.X ≤ 400 →
      (s.Render x y a).1.container.Rect.Dx =
        s.originalSize.X - (s.startingPoint.X - x) - s.container.Rect.Min.X) := by
  obtain ⟨-, -, -, -, -, s6, -, -⟩ := Render_spec s x y a
  obtain ⟨c1, c2, -⟩ := renderResizeWidth_sameConfig s x
  rw [s6, renderDrag_idle s x y hd, renderResize_resizing s x y hr hp,
    renderResizeHeight_Dx _ y _ _ (c1.trans hmin) (c2.trans hmax),
    renderResizeWidth_Dx s x _ _ hmin hmax hw]
  dsimp only
  refine ⟨?_, ?_, ?_⟩ <;> intros <;> split_ifs <;> omega

/-- C6 (amended), on the example window with the right edge grabbed at
`(198,50)`: the pointer at `(448,50)`, raw width 450, leaves the window 400
wide; the pointer at `(48,50)`, raw width 50, leaves it 100 wide. -/
theorem resize_width_clamp_witness :
    ((run exampleWindow [Input.Render 198 50 true, Input.contentsPressed 198 50]).1.Render
        448 50 true).1.container.Rect.Dx = 400 ∧
    ((run exampleWindow [Input.Render 198 50 true, Input.contentsPressed 198 50]).1.Render
        48 50 true).1.container.Rect.Dx = 100 :=
  ⟨(resize_width_clamp (run exampleWindow [Input.Render 198 50 true,
      Input.contentsPressed 198 50]).1 448 50 true rfl rfl rfl rfl rfl (by decide)).1 (by decide),
   (resize_width_clamp (run exampleWindow [Input.Render 198 50 true,
      Input.contentsPressed 198 50]).1 48 50 true rfl rfl rfl rfl rfl (by decide)).2.1 (by decide)⟩

/-! ## Exclusion of gestures -/

/-- C7 (as stated, refuted): on the example window, a frame with the pointer at
`(198,10)`, on the title bar and within 6 of the right edge, selects
width-resize, and the title-bar press that follows starts the drag: dragging
and width-resizing are both true. -/
theorem gesture_exclusive_counterexample :
    ((run exampleWindow [Input.Render 198 10 true, Input.titleBarPressed 198 10]).1.dragging,
     (run exampleWindow [Input.Render 198 10 true, Input.titleBarPressed 198 10]).1.resizingWidth,
     (run exampleWindow [Input.Render 198 10 true,
        Input.titleBarPressed 198 10]).1.resizingHeight)
      = (true, true, false) := by
  decide

/-- C7 (amended): in every state a constructed window reaches, width-resizing
and height-resizing are not both true; dragging may hold together with one of
them, and then a frame moves the rectangle by the drag alone, translated by
the move of the pointer and clamped. -/
theorem gesture_exclusive (opts : List WindowOpt) (s : Window) (hr : Reachable opts s) :
    ¬ (s.resizingWidth = true ∧ s.resizingHeight = true) ∧
    ∀ x y a, s.dragging = true →
      (s.Render x y a).1.container.Rect =
        if s.startingPoint.X ≠ x ∨ s.startingPoint.Y ≠ y then
          clampMax s.MaxSize (clampMin s.MinSize
            (s.container.Rect.Add ⟨x - s.startingPoint.X, y - s.startingPoint.Y⟩))
        else s.container.Rect :=
  ⟨(Reachable_wellFormed opts s hr).2.2.2.2.2,
   fun x y a h => (Render_dragging s x y a h).2⟩

/-- C7 (amended), on the example window after a hover at `(198,10)`, a
contents press and a title-bar press at `(198,10)`: dragging, resizing and
width-resizing all hold, height-resizing does not, and the frame at `(208,15)`
takes the window to `(10,5)-(210,105)`, its width unchanged. -/
theorem gesture_exclusive_witness :
    ¬ ((run exampleWindow [Input.Render 198 10 true, Input.contentsPressed 198 10,
          Input.titleBarPressed 198 10]).1.resizingWidth = true ∧
       (run exampleWindow [Input.Render 198 10 true, Input.contentsPressed 198 10,
          Input.titleBarPressed 198 10]).1.resizingHeight = true) ∧
    ((run exampleWindow [Input.Render 198 10 true, Input.contentsPressed 198 10,
        Input.titleBarPressed 198 10]).1.Render 208 15 true).1.container.Rect =
      ⟨⟨10, 5⟩, ⟨210, 105⟩⟩ :=
  ⟨(gesture_exclusive exampleOpts _ (exampleWindow_reachable [Input.Render 198 10 true,
      Input.contentsPressed 198 10, Input.titleBarPressed 198 10])).1,
   (gesture_exclusive exampleOpts _ (exampleWindow_reachable [Input.Render 198 10 true,
      Input.contentsPressed 198 10, Input.titleBarPressed 198 10])).2 208 15 true rfl⟩

/-! ## Validation at construction -/

/-- C10 (as stated, refuted): `NewWindow` with contents, a title bar of height
0, `MinSize (100,100)` and `MaxSize (50,50)` returns a window, which keeps the
inverted sizes and the zero height. -/
theorem NewWindow_no_validation_counterexample :
    (NewWindow [WindowOpt.Contents (some NewContainer), WindowOpt.TitleBar (some NewContainer) 0,
        WindowOpt.MinSize 100 100, WindowOpt.MaxSize 50 50]).map
      (fun w => (w.MinSize, w.MaxSize, w.TitleBar.isSome, w.titleBarHeight))
      = some (some ⟨100, 100⟩, some ⟨50, 50⟩, true, 0) := by
  decide

/-- C10 (amended): `NewWindow` fails exactly when no content unit is
configured; whatever the title-bar height, `MinSize` and `MaxSize` are, with a
content unit it returns a window, and the window keeps them as configured. -/
theorem NewWindow_fails_iff_no_contents (opts : List WindowOpt) :
    (NewWindow opts = none ↔ (applyOpts opts zeroWindow).Contents = none) ∧
    ∀ w, NewWindow opts = some w →
      w.MinSize = (applyOpts opts zeroWindow).MinSize ∧
      w.MaxSize = (applyOpts opts zeroWindow).MaxSize ∧
      w.titleBarHeight = (applyOpts opts zeroWindow).titleBarHeight := by
  constructor
  · constructor
    · intro h
      cases hc : (applyOpts opts zeroWindow).Contents with
      | none => rfl
      | some c0 =>
        exfalso
        have h1 := composeLayout_isSome (applyOpts opts zeroWindow)
        rw [hc] at h1
        cases h2 : composeLayout (applyOpts opts zeroWindow) with
        | none => rw [h2] at h1; cases h1
        | some w1 =>
          obtain ⟨-, tb, c, -, e1⟩ := composeLayout_eq _ _ h2
          have h3 : w1.Contents.isSome = true := by rw [e1]; simp [hc]
          have h4 := registerResize_isSome w1 h3
          cases h5 : registerResize w1 with
          | none => rw [h5] at h4; cases h4
          | some w2 => simp [NewWindow, h2, h5] at h
    · intro h
      cases h2 : NewWindow opts with
      | none => rfl
      | some w =>
        have := (NewWindow_eq opts w h2).1
        rw [h] at this; cases this
  · intro w h
    obtain ⟨-, tb, c, i, -, e⟩ := NewWindow_eq opts w h
    subst e
    exact ⟨rfl, rfl, rfl⟩

/-- C10 (amended), at the options of the counterexample and at the same
options without the contents: the first construction succeeds and keeps
`MinSize (100,100)` above `MaxSize (50,50)`, the second fails. -/
theorem NewWindow_fails_iff_no_contents_witness :
    NewWindow [WindowOpt.TitleBar (some NewContainer) 0, WindowOpt.MinSize 100 100,
      WindowOpt.MaxSize 50 50] = none ∧
    (NewWindow [WindowOpt.Contents (some NewContainer), WindowOpt.TitleBar (some NewContainer) 0,
      WindowOpt.MinSize 100 100, WindowOpt.MaxSize 50 50]).map (fun w => w.MinSize)
      = some (some ⟨100, 100⟩) :=
  ⟨(NewWindow_fails_iff_no_contents [WindowOpt.TitleBar (some NewContainer) 0,
      WindowOpt.MinSize 100 100, WindowOpt.MaxSize 50 50]).1.2 rfl,
   by decide⟩

/-! ## Configuration of a constructed window -/

theorem applyOpts_cons (o : WindowOpt) (os : List WindowOpt) (w : Window) :
    applyOpts (o :: os) w = applyOpts os (o.apply w) := rfl

theorem applyOpts_Draggable (opts : List WindowOpt) (w : Window) :
    (applyOpts opts w).Draggable = true ↔ (w.Draggable = true ∨ WindowOpt.Draggable ∈ opts) := by
  induction opts generalizing w with
  | nil => simp [applyOpts]
  | cons o os ih =>
    rw [applyOpts_cons, ih]
    cases o <;> simp [WindowOpt.apply]

theorem applyOpts_Resizeable (opts : List WindowOpt) (w : Window) :
    (applyOpts opts w).Resizeable = true ↔ (w.Resizeable = true ∨ WindowOpt.Resizeable ∈ opts) := by
  induction opts generalizing w with
  | nil => simp [applyOpts]
  | cons o os ih =>
    rw [applyOpts_cons, ih]
    cases o <;> simp [WindowOpt.apply]

theorem applyOpts_closeOnClick (opts : List WindowOpt) (w : Window) :
    (applyOpts opts w).closeOnClick = true ↔
      (w.closeOnClick = true ∨ WindowOpt.CloseOnClickOut ∈ opts) := by
  induction opts generalizing w with
  | nil => simp [applyOpts]
  | cons o os ih =>
    rw [applyOpts_cons, ih]
    cases o <;> simp [WindowOpt.apply]

theorem applyOpts_Modal (opts : List WindowOpt) (w : Window) :
    (applyOpts opts w).Modal = true ↔ (w.Modal = true ∨ WindowOpt.Modal ∈ opts) := by
  induction opts generalizing w with
  | nil => simp [applyOpts]
  | cons o os ih =>
    rw [applyOpts_cons, ih]
    cases o <;> simp [WindowOpt.apply]

theorem applyOpts_TitleBar (opts : List WindowOpt) (w : Window)
    (h : (applyOpts opts w).TitleBar.isSome = true) :
    w.TitleBar.isSome = true ∨ ∃ tb height, WindowOpt.TitleBar (some tb) height ∈ opts := by
  induction opts generalizing w with
  | nil => exact Or.inl h
  | cons o os ih =>
    rw [applyOpts_cons] at h
    rcases ih _ h with h1 | ⟨tb, height, h2⟩
    · cases o with
      | TitleBar t height =>
        cases t with
        | none => simp [WindowOpt.apply] at h1
        | some tb => exact Or.inr ⟨tb, height, List.mem_cons_self _ _⟩
      | _ => exact Or.inl h1
    · exact Or.inr ⟨tb, height, List.mem_cons_of_mem _ h2⟩

/-- The configuration of a state a constructed window reaches is the one the
options set, and the close handler is registered exactly with
`CloseOnClickOut`. -/
theorem Reachable_config (opts : List WindowOpt) (s : Window) (h : Reachable opts s) :
    s.Draggable = (applyOpts opts zeroWindow).Draggable ∧
    s.Resizeable = (applyOpts opts zeroWindow).Resizeable ∧
    s.TitleBar.isSome = (applyOpts opts zeroWindow).TitleBar.isSome ∧
    s.closeOnClick = (applyOpts opts zeroWindow).closeOnClick ∧
    s.Modal = (applyOpts opts zeroWindow).Modal ∧
    s.containerHandler = s.closeOnClick := by
  obtain ⟨w0, is, h0, rfl⟩ := h
  obtain ⟨c1, c2, c3, c4, c5, c6, c7, c8, c9, c10, c11⟩ := run_sameConfig w0 is
  obtain ⟨-, tb, c, i, htb, e⟩ := NewWindow_eq opts w0 h0
  rw [c3, c4, c5, c8, c7, c11]
  subst e
  exact ⟨rfl, rfl, htb, rfl, rfl, rfl⟩

/-- C11: in every state a constructed window reaches, dragging is set only if
the options held `Draggable` and a title bar, and resizing, width-resize and
height-resize are set only if they held `Resizeable`; without the title bar or
without `Draggable` the drag block of a frame leaves the window as it is. -/
theorem gestures_gated (opts : List WindowOpt) (s : Window) (hr : Reachable opts s) :
    (s.dragging = true →
      WindowOpt.Draggable ∈ opts ∧ ∃ tb height, WindowOpt.TitleBar (some tb) height ∈ opts) ∧
    (s.resizing = true ∨ s.resizingWidth = true ∨ s.resizingHeight = true →
      WindowOpt.Resizeable ∈ opts) ∧
    (WindowOpt.Draggable ∉ opts ∨ (∀ tb height, WindowOpt.TitleBar (some tb) height ∉ opts) →
      s.dragging = false ∧ ∀ x y, s.renderDrag x y = s) := by
  obtain ⟨h1, h2, h3, h4, h5, -⟩ := Reachable_wellFormed opts s hr
  obtain ⟨g1, g2, g3, -, -, -⟩ := Reachable_config opts s hr
  have key : s.dragging = true →
      WindowOpt.Draggable ∈ opts ∧ ∃ tb height, WindowOpt.TitleBar (some tb) height ∈ opts := by
    intro hd
    have ht := h1 hd
    rw [h3, Bool.and_eq_true] at ht
    obtain ⟨t1, t2⟩ := ht
    rw [g1] at t2
    rw [g3] at t1
    constructor
    · rcases (applyOpts_Draggable opts zeroWindow).1 t2 with h | h
      · cases h
      · exact h
    · rcases applyOpts_TitleBar opts zeroWindow t1 with h | h
      · cases h
      · exact h
  refine ⟨key, ?_, ?_⟩
  · intro h
    have hR : s.Resizeable = true := by
      rcases h with h | h | h
      · rw [← h4]; exact h2 h
      · exact h5 (Or.inl h)
      · exact h5 (Or.inr h)
    rw [g2] at hR
    rcases (applyOpts_Resizeable opts zeroWindow).1 hR with h | h
    · cases h
    · exact h
  · intro h
    have hd : s.dragging = false := by
      cases hd : s.dragging
      · rfl
      · obtain ⟨k1, tb, height, k2⟩ := key hd
        rcases h with h | h
        · exact absurd k1 h
        · exact absurd k2 (h tb height)
    exact ⟨hd, fun x y => renderDrag_idle s x y hd⟩

/-- C11 on the example window with the title bar pressed at `(10,10)` and the
contents pressed at `(198,50)`: dragging and resizing are set, and the options
hold `Draggable`, a title bar and `Resizeable`. -/
theorem gestures_gated_witness :
    (WindowOpt.Draggable ∈ exampleOpts ∧
      ∃ tb height, WindowOpt.TitleBar (some tb) height ∈ exampleOpts) ∧
    WindowOpt.Resizeable ∈ exampleOpts :=
  ⟨(gestures_gated exampleOpts _ (exampleWindow_reachable
      [Input.titleBarPressed 10 10, Input.contentsPressed 198 50])).1 rfl,
   (gestures_gated exampleOpts _ (exampleWindow_reachable
      [Input.titleBarPressed 10 10, Input.contentsPressed 198 50])).2.1 (Or.inl rfl)⟩

/-! ## Closing -/

theorem closableWindow_reachable (is : List Input) :
    Reachable closableOpts (run closableWindow is).1 :=
  ⟨closableWindow, is, by decide, rfl⟩

/-- C12: in every state a window built with `CloseOnClickOut` reaches, with
the close function `f` set, a release on the window container outside the
window calls `f` once and a release inside calls nothing; in every state a
window built without `CloseOnClickOut` reaches, no release on the container,
the title bar or the contents calls the close function. -/
theorem close_on_click_out (opts : List WindowOpt) (s : Window) (hr : Reachable opts s) :
    (WindowOpt.CloseOnClickOut ∈ opts → ∀ f, s.closeFunc = some f →
      closeCalls (s.containerReleased false).2 = [f] ∧
      closeCalls (s.containerReleased true).2 = []) ∧
    (WindowOpt.CloseOnClickOut ∉ opts →
      (∀ inside, closeCalls (s.containerReleased inside).2 = []) ∧
      closeCalls s.titleBarReleased.2 = [] ∧ closeCalls s.contentsReleased.2 = []) := by
  obtain ⟨-, -, -, g4, -, g6⟩ := Reachable_config opts s hr
  have hc := applyOpts_closeOnClick opts zeroWindow
  rw [← g4] at hc
  constructor
  · intro hin f hf
    have h1 : s.containerHandler = true := by rw [g6]; exact hc.2 (Or.inr hin)
    simp [Window.containerReleased, h1, hf, closeCalls]
  · intro hout
    have h1 : s.containerHandler = false := by
      rw [g6]
      cases hcl : s.closeOnClick
      · rfl
      · rcases hc.1 hcl with h | h
        · cases h
        · exact absurd h hout
    refine ⟨?_, ?_, ?_⟩
    · intro inside
      simp [Window.containerReleased, h1, closeCalls]
    · unfold Window.titleBarReleased
      split_ifs <;> rfl
    · unfold Window.contentsReleased
      split_ifs <;> rfl

/-- C12 on the window built with `CloseOnClickOut` and given the close function
7: a release outside calls 7 once, a release inside calls nothing. -/
theorem close_on_click_out_witness :
    closeCalls ((run closableWindow [Input.SetCloseFunction (some 7)]).1.containerReleased false).2
      = [7] ∧
    closeCalls ((run closableWindow [Input.SetCloseFunction (some 7)]).1.containerReleased true).2
      = [] :=
  (close_on_click_out closableOpts _
    (closableWindow_reachable [Input.SetCloseFunction (some 7)])).1 (by decide) 7 rfl

/-- C13: `Window.Close` calls the close function set by `SetCloseFunction`
once and leaves the window as it is; with no close function it calls nothing
and leaves the window as it is, and so does the close-on-outside-click handler
on any release. -/
theorem Close_passthrough (w : Window) :
    (∀ f, (w.SetCloseFunction (some f)).Close =
      (w.SetCloseFunction (some f), [Effect.closeFunc f])) ∧
    (∀ f, w.closeFunc = some f → w.Close = (w, [Effect.closeFunc f])) ∧
    (w.closeFunc = none →
      w.Close = (w, []) ∧ ∀ inside, w.containerReleased inside = (w, [])) := by
  refine ⟨fun f => rfl, ?_, ?_⟩
  · intro f hf
    simp only [Window.Close, hf]
  · intro hf
    constructor
    · simp only [Window.Close, hf]
    · intro inside
      simp only [Window.containerReleased, hf]
      split_ifs <;> rfl

/-- C13 on the window built with `CloseOnClickOut`: before a close function is
set, `Close` and a release outside do nothing; once the close function 7 is
set, `Close` calls it once. -/
theorem Close_passthrough_witness :
    (closableWindow.Close = (closableWindow, []) ∧
      ∀ inside, closableWindow.containerReleased inside = (closableWindow, [])) ∧
    (closableWindow.SetCloseFunction (some 7)).Close =
      (closableWindow.SetCloseFunction (some 7), [Effect.closeFunc 7]) :=
  ⟨(Close_passthrough closableWindow).2.2 rfl,
   (Close_passthrough closableWindow).1 7⟩

/-! ## Hit test of the input layer -/

/-- C14: the layer installed by `SetupInputLayer` is full-screen exactly when
the window is modal; asked in any later state of the window, the hit test of a
modal window holds at every coordinate, and that of a window that is not modal
holds exactly at the coordinates inside the rectangle the window has in that
state. -/
theorem input_layer_hit_test (w : Window) (is : List Input) (x y : Int) :
    w.SetupInputLayer.FullScreen = w.Modal ∧
    (w.Modal = true → w.SetupInputLayer.contains (run w is).1 x y = true) ∧
    (w.Modal = false →
      (w.SetupInputLayer.contains (run w is).1 x y = true ↔
        ((run w is).1.container.Rect.Min.X ≤ x ∧ x < (run w is).1.container.Rect.Max.X ∧
         (run w is).1.container.Rect.Min.Y ≤ y ∧ y < (run w is).1.container.Rect.Max.Y))) := by
  refine ⟨rfl, ?_, ?_⟩
  · intro hm
    simp [Layer.contains, Window.SetupInputLayer, hm]
  · intro hm
    simp [Layer.contains, Window.SetupInputLayer, hm, RectFunc.call, Point.In, and_assoc]

/-- C14 on the example window, not modal, dragged from `(0,0)-(200,100)` to
`(10,10)-(210,110)` after the layer was installed: `(205,105)` is hit and
`(5,5)` is not. -/
theorem input_layer_hit_test_witness :
    exampleWindow.SetupInputLayer.contains
        (run exampleWindow [Input.titleBarPressed 10 10, Input.Render 20 20 true]).1 205 105 = true ∧
    ¬ exampleWindow.SetupInputLayer.contains
        (run exampleWindow [Input.titleBarPressed 10 10, Input.Render 20 20 true]).1 5 5 = true :=
  ⟨((input_layer_hit_test exampleWindow
      [Input.titleBarPressed 10 10, Input.Render 20 20 true] 205 105).2.2 rfl).2 (by decide),
   fun h => absurd (((input_layer_hit_test exampleWindow
      [Input.titleBarPressed 10 10, Input.Render 20 20 true] 5 5).2.2 rfl).1 h) (by decide)⟩

/-! ## Clamping twice, clamping a conforming rectangle -/

theorem Rectangle_ext_extent (R1 R2 : Rectangle) (h1 : R1.Min = R2.Min) (h2 : R1.Dx = R2.Dx)
    (h3 : R1.Dy = R2.Dy) : R1 = R2 := by
  obtain ⟨⟨a, b⟩, ⟨c, d⟩⟩ := R1
  obtain ⟨⟨a2, b2⟩, ⟨c2, d2⟩⟩ := R2
  simp only [Rectangle.Dx, Rectangle.Dy, Point.mk.injEq] at h1 h2 h3
  simp only [Rectangle.mk.injEq, Point.mk.injEq]
  omega

theorem clamp_idempotent (mn mx : Option Point) (R : Rectangle) :
    clampMax mx (clampMin mn (clampMax mx (clampMin mn R))) = clampMax mx (clampMin mn R) := by
  apply Rectangle_ext_extent
  · rw [clampMax_Min, clampMin_Min]
  · rw [clampMax_Dx, clampMin_Dx, clampMax_Dx, clampMin_Dx]
    cases mn <;> cases mx <;> first | rfl | (simp only []; split_ifs <;> omega)
  · rw [clampMax_Dy, clampMin_Dy, clampMax_Dy, clampMin_Dy]
    cases mn <;> cases mx <;> first | rfl | (simp only []; split_ifs <;> omega)

/-- C17: `Window.SetLocation` called with the rectangle a previous
`Window.SetLocation` handed to the container hands the container the same
rectangle again and leaves the window as it is, whatever `MinSize` and
`MaxSize` are, a minimum above the maximum included. -/
theorem SetLocation_idempotent (w : Window) (R : Rectangle) :
    ((w.SetLocation R).SetLocation (w.SetLocation R).container.Rect).container.Rect =
      (w.SetLocation R).container.Rect ∧
    (w.SetLocation R).SetLocation (w.SetLocation R).container.Rect = w.SetLocation R := by
  have h : clampMax w.MaxSize (clampMin w.MinSize (clampMax w.MaxSize (clampMin w.MinSize R))) =
      clampMax w.MaxSize (clampMin w.MinSize R) := clamp_idempotent _ _ _
  constructor
  · exact h
  · simp only [Window.SetLocation, Container.SetLocation, h]

/-- C18: `Window.SetLocation` hands the container the rectangle it was given
when its width and height lie within every configured bound, and so for every
rectangle when neither `MinSize` nor `MaxSize` is set. -/
theorem SetLocation_identity (w : Window) (R : Rectangle) :
    (w.conforms R → (w.SetLocation R).container.Rect = R) ∧
    (w.MinSize = none → w.MaxSize = none → (w.SetLocation R).container.Rect = R) := by
  constructor
  · intro h
    rw [SetLocation_rect]
    exact clamp_conforms w R h
  · intro h1 h2
    rw [SetLocation_rect, h1, h2]
    rfl

/-- C18 on the example window, between `(100,50)` and `(400,300)` in size, and
the rectangle `(7,9)-(307,209)`, 300 wide and 200 high. -/
theorem SetLocation_identity_witness :
    (exampleWindow.SetLocation ⟨⟨7, 9⟩, ⟨307, 209⟩⟩).container.Rect = ⟨⟨7, 9⟩, ⟨307, 209⟩⟩ :=
  (SetLocation_identity exampleWindow ⟨⟨7, 9⟩, ⟨307, 209⟩⟩).1
    ⟨fun m hm => by
        have h : some (⟨100, 50⟩ : Point) = some m := hm
        cases h; decide,
     fun M hM => by
        have h : some (⟨400, 300⟩ : Point) = some M := hM
        cases h; decide⟩

/-! ## Frames that move nothing -/

theorem renderDrag_same (w : Window) (x y : Int) (h : w.startingPoint = ⟨x, y⟩) :
    w.renderDrag x y = w := by
  unfold Window.renderDrag
  split_ifs with h1 h2
  · rw [h] at h2; simp at h2
  · rfl
  · rfl

theorem renderResize_idle (w : Window) (x y : Int) (h : w.resizing = false) :
    w.renderResize x y = w := by
  unfold Window.renderResize
  rw [if_neg (by simp [h])]

theorem renderResizeHeight_idle (s : Window) (y : Int) (hh : s.resizingHeight = false) :
    s.renderResizeHeight y = s := by
  unfold Window.renderResizeHeight
  rw [if_neg (by simp [hh])]

theorem renderResizeWidth_idle (s : Window) (x : Int) (hh : s.resizingWidth = false) :
    s.renderResizeWidth x = s := by
  unfold Window.renderResizeWidth
  rw [if_neg (by simp [hh])]

theorem renderResize_no_axis (w : Window) (x y : Int) (h1 : w.resizingWidth = false)
    (h2 : w.resizingHeight = false) : w.renderResize x y = w := by
  unfold Window.renderResize
  split_ifs
  · show (w.renderResizeWidth x).renderResizeHeight y = w
    rw [renderResizeWidth_idle w x h1, renderResizeHeight_idle w y h2]
  · rfl
  · rfl

/-- C20: a frame leaves the rectangle, the recorded pointer and the
gesture-start size of the window as they are (and the dragging and resizing
flags with them) when neither dragging nor resizing is set, or the pointer is
at the recorded pointer, or resizing is set without dragging and neither
resize axis is selected. -/
theorem Render_moves_nothing (s : Window) (x y : Int) (a : Bool)
    (h : (s.dragging = false ∧ s.resizing = false) ∨
      s.startingPoint = ⟨x, y⟩ ∨
      (s.resizing = true ∧ s.dragging = false ∧
        s.resizingWidth = false ∧ s.resizingHeight = false)) :
    (s.Render x y a).1.container.Rect = s.container.Rect ∧
    (s.Render x y a).1.startingPoint = s.startingPoint ∧
    (s.Render x y a).1.originalSize = s.originalSize ∧
    (s.Render x y a).1.dragging = s.dragging ∧
    (s.Render x y a).1.resizing = s.resizing := by
  obtain ⟨s1, s2, s3, -, s5, s6, -, -⟩ := Render_spec s x y a
  refine ⟨?_, ?_, s3, s1, s2⟩
  · rw [s6]
    rcases h with ⟨h1, h2⟩ | h | ⟨-, h2, h3, h4⟩
    · rw [renderDrag_idle s x y h1, renderResize_idle s x y h2]
    · rw [renderDrag_same s x y h, renderResize_same s x y h]
    · rw [renderDrag_idle s x y h2, renderResize_no_axis s x y h3 h4]
  · rw [s5]
    rcases h with ⟨h1, -⟩ | h | ⟨-, h2, -, -⟩
    · rw [renderDrag_idle s x y h1]
    · rw [renderDrag_same s x y h]
    · rw [renderDrag_idle s x y h2]

/-- C20 on the example window with the contents pressed at `(100,50)`, away
from the edges, so that resizing is set and no axis is selected: the frame at
`(150,60)` leaves the rectangle `(0,0)-(200,100)` and the pointer `(100,50)`. -/
theorem Render_moves_nothing_witness :
    ((run exampleWindow [Input.Render 100 50 true, Input.contentsPressed 100 50]).1.Render
        150 60 true).1.container.Rect = ⟨⟨0, 0⟩, ⟨200, 100⟩⟩ ∧
    ((run exampleWindow [Input.Render 100 50 true, Input.contentsPressed 100 50]).1.Render
        150 60 true).1.startingPoint = ⟨100, 50⟩ :=
  ⟨(Render_moves_nothing (run exampleWindow [Input.Render 100 50 true,
      Input.contentsPressed 100 50]).1 150 60 true (Or.inr (Or.inr ⟨rfl, rfl, rfl, rfl⟩))).1,
   (Render_moves_nothing (run exampleWindow [Input.Render 100 50 true,
      Input.contentsPressed 100 50]).1 150 60 true (Or.inr (Or.inr ⟨rfl, rfl, rfl, rfl⟩))).2.1⟩

/-! ## One axis per frame -/

/-- C19: in every state a constructed window reaches, width-resize and
height-resize are not both selected, and a frame on a window that is not being
dragged leaves the rectangle as it is or hands `Window.SetLocation` the
rectangle with one coordinate of the `Max` corner replaced: `Max.X` alone, or
`Max.Y` alone. -/
theorem resize_one_axis (opts : List WindowOpt) (s : Window) (hr : Reachable opts s) :
    ¬ (s.resizingWidth = true ∧ s.resizingHeight = true) ∧
    ∀ x y a, s.dragging = false →
      ((s.Render x y a).1.container.Rect = s.container.Rect ∨
       (s.Render x y a).1.container.Rect =
          (s.SetLocation { s.container.Rect with
            Max := { s.container.Rect.Max with
              X := s.originalSize.X - (s.startingPoint.X - x) } }).container.Rect ∨
       (s.Render x y a).1.container.Rect =
          (s.SetLocation { s.container.Rect with
            Max := { s.container.Rect.Max with
              Y := s.originalSize.Y - (s.startingPoint.Y - y) } }).container.Rect) := by
  have hb := (Reachable_wellFormed opts s hr).2.2.2.2.2
  refine ⟨hb, ?_⟩
  intro x y a hd
  obtain ⟨-, -, -, -, -, s6, -, -⟩ := Render_spec s x y a
  rw [s6, renderDrag_idle s x y hd]
  by_cases h1 : s.resizing = true
  · by_cases h2 : s.startingPoint.X ≠ x ∨ s.startingPoint.Y ≠ y
    · rw [renderResize_resizing s x y h1 h2]
      cases hw : s.resizingWidth with
      | false =>
        rw [renderResizeWidth_idle s x hw]
        cases hh : s.resizingHeight with
        | false => rw [renderResizeHeight_idle s y hh]; exact Or.inl rfl
        | true =>
          refine Or.inr (Or.inr ?_)
          unfold Window.renderResizeHeight
          rw [if_pos hh]
          rfl
      | true =>
        have hh : s.resizingHeight = false := by
          cases hh : s.resizingHeight
          · rfl
          · exact absurd ⟨hw, hh⟩ hb
        refine Or.inr (Or.inl ?_)
        have e : (s.renderResizeWidth x).resizingHeight = false :=
          (renderResizeWidth_sameFlags s x).1.2.2.2.1.trans hh
        rw [renderResizeHeight_idle _ y e]
        unfold Window.renderResizeWidth
        rw [if_pos hw]
        rfl
    · left
      unfold Window.renderResize
      rw [if_pos h1, if_neg h2]
  · left
    unfold Window.renderResize
    rw [if_neg h1]

/-- C19 on the example window with the right edge grabbed at `(198,50)`: no two
axes are selected, and the frame at `(248,80)` changes `Max.X` alone, to
`(0,0)-(250,100)`. -/
theorem resize_one_axis_witness :
    ¬ ((run exampleWindow [Input.Render 198 50 true,
          Input.contentsPressed 198 50]).1.resizingWidth = true ∧
       (run exampleWindow [Input.Render 198 50 true,
          Input.contentsPressed 198 50]).1.resizingHeight = true) ∧
    ((run exampleWindow [Input.Render 198 50 true, Input.contentsPressed 198 50]).1.Render
        248 80 true).1.container.Rect = ⟨⟨0, 0⟩, ⟨250, 100⟩⟩ :=
  ⟨(resize_one_axis exampleOpts _ (exampleWindow_reachable
      [Input.Render 198 50 true, Input.contentsPressed 198 50])).1,
   by
    rcases (resize_one_axis exampleOpts _ (exampleWindow_reachable
      [Input.Render 198 50 true, Input.contentsPressed 198 50])).2 248 80 true rfl with h | h | h
    · exact absurd h (by decide)
    · exact h.trans (by decide)
    · exact absurd h (by decide)⟩

/-! ## The hover test -/

theorem Rect_ordered (x0 y0 x1 y1 : Int) (hx : x0 ≤ x1) (hy : y0 ≤ y1) :
    Rect x0 y0 x1 y1 = ⟨⟨x0, y0⟩, ⟨x1, y1⟩⟩ := by
  simp only [Rect, if_neg (show ¬ x0 > x1 by omega), if_neg (show ¬ y0 > y1 by omega)]

/-- The one-pixel rectangle of the pointer overlaps a rectangle with ordered
corners exactly when the pointer lies inside it. -/
theorem cursor_Overlaps (x y x0 y0 x1 y1 : Int) (hx : x0 ≤ x1) (hy : y0 ≤ y1) :
    (Rect x y (x + 1) (y + 1)).Overlaps (Rect x0 y0 x1 y1) =
      decide (x0 ≤ x ∧ x < x1 ∧ y0 ≤ y ∧ y < y1) := by
  rw [Rect_ordered x y (x + 1) (y + 1) (by omega) (by omega), Rect_ordered x0 y0 x1 y1 hx hy]
  rw [Bool.eq_iff_iff]
  simp only [Rectangle.Overlaps, Rectangle.Empty, Bool.and_eq_true, Bool.not_eq_true',
    Bool.or_eq_false_iff, decide_eq_true_eq, decide_eq_false_iff_not]
  constructor
  · intro h; omega
  · intro h; omega

/-- The hover flags the hover test leaves on a resizeable window with a
non-empty rectangle. -/
theorem renderHover_flags (t : Window) (x y : Int) (a : Bool) (hR : t.Resizeable = true)
    (hx : t.container.Rect.Min.X < t.container.Rect.Max.X)
    (hy : t.container.Rect.Min.Y < t.container.Rect.Max.Y) :
    (t.renderHover x y a).1.resizingWidth =
      (a && decide (t.container.Rect.Max.X - 6 ≤ x ∧ x < t.container.Rect.Max.X ∧
        t.container.Rect.Min.Y ≤ y ∧ y < t.container.Rect.Max.Y)) ∧
    (t.renderHover x y a).1.resizingHeight =
      (a && !decide (t.container.Rect.Max.X - 6 ≤ x ∧ x < t.container.Rect.Max.X ∧
        t.container.Rect.Min.Y ≤ y ∧ y < t.container.Rect.Max.Y) &&
        decide (t.container.Rect.Min.X ≤ x ∧ x < t.container.Rect.Max.X ∧
        t.container.Rect.Max.Y - 6 ≤ y ∧ y < t.container.Rect.Max.Y)) := by
  simp only [Window.renderHover, hR, if_true]
  rw [cursor_Overlaps x y _ _ _ _ (by omega) (by omega),
    cursor_Overlaps x y _ _ _ _ (by omega) (by omega)]
  generalize decide (t.container.Rect.Max.X - 6 ≤ x ∧ x < t.container.Rect.Max.X ∧
        t.container.Rect.Min.Y ≤ y ∧ y < t.container.Rect.Max.Y) = b1
  generalize decide (t.container.Rect.Min.X ≤ x ∧ x < t.container.Rect.Max.X ∧
        t.container.Rect.Max.Y - 6 ≤ y ∧ y < t.container.Rect.Max.Y) = b2
  cases a <;> cases b1 <;> cases b2 <;> simp

/-- C16: after a frame of a resizeable window at pointer `(x, y)`, with
`[Min, Max)` the non-empty rectangle the window has after the frame: width-resize
is selected exactly when the input layer is active for `(x, y)` and
`Max.X - 6 <= x < Max.X` and `Min.Y <= y < Max.Y`; height-resize is selected
exactly when the layer is active, that zone is missed and `Min.X <= x < Max.X`
and `Max.Y - 6 <= y < Max.Y`. The selection is a function of the layer's answer,
the rectangle and the pointer alone. -/
theorem hover_test (s : Window) (x y : Int) (a : Bool) (hR : s.Resizeable = true)
    (hx : (s.Render x y a).1.container.Rect.Min.X < (s.Render x y a).1.container.Rect.Max.X)
    (hy : (s.Render x y a).1.container.Rect.Min.Y < (s.Render x y a).1.container.Rect.Max.Y) :
    (s.Render x y a).1.resizingWidth =
      (a && decide ((s.Render x y a).1.container.Rect.Max.X - 6 ≤ x ∧
        x < (s.Render x y a).1.container.Rect.Max.X ∧
        (s.Render x y a).1.container.Rect.Min.Y ≤ y ∧
        y < (s.Render x y a).1.container.Rect.Max.Y)) ∧
    (s.Render x y a).1.resizingHeight =
      (a && !decide ((s.Render x y a).1.container.Rect.Max.X - 6 ≤ x ∧
        x < (s.Render x y a).1.container.Rect.Max.X ∧
        (s.Render x y a).1.container.Rect.Min.Y ≤ y ∧
        y < (s.Render x y a).1.container.Rect.Max.Y) &&
        decide ((s.Render x y a).1.container.Rect.Min.X ≤ x ∧
        x < (s.Render x y a).1.container.Rect.Max.X ∧
        (s.Render x y a).1.container.Rect.Max.Y - 6 ≤ y ∧
        y < (s.Render x y a).1.container.Rect.Max.Y)) := by
  obtain ⟨-, -, -, -, -, s6, -, -⟩ := Render_spec s x y a
  have hR2 : ((s.renderDrag x y).renderResize x y).Resizeable = true :=
    ((sameConfig_trans (renderResize_sameConfig _ x y) (renderDrag_sameConfig s x y)).2.2.2.1).trans hR
  rw [s6] at hx hy ⊢
  exact renderHover_flags _ x y a hR2 hx hy

/-- C16 on the example window `(0,0)-(200,100)`: the pointer at `(198,97)`, in
the bottom-right corner, selects width-resize and not height-resize; at
`(100,97)` it selects height-resize; with the layer not active it selects
neither. -/
theorem hover_test_witness :
    ((exampleWindow.Render 198 97 true).1.resizingWidth = true ∧
      (exampleWindow.Render 198 97 true).1.resizingHeight = false) ∧
    ((exampleWindow.Render 100 97 true).1.resizingWidth = false ∧
      (exampleWindow.Render 100 97 true).1.resizingHeight = true) ∧
    ((exampleWindow.Render 198 97 false).1.resizingWidth = false ∧
      (exampleWindow.Render 198 97 false).1.resizingHeight = false) :=
  ⟨⟨(hover_test exampleWindow 198 97 true rfl (by decide) (by decide)).1.trans (by decide),
    (hover_test exampleWindow 198 97 true rfl (by decide) (by decide)).2.trans (by decide)⟩,
   ⟨(hover_test exampleWindow 100 97 true rfl (by decide) (by decide)).1.trans (by decide),
    (hover_test exampleWindow 100 97 true rfl (by decide) (by decide)).2.trans (by decide)⟩,
   ⟨(hover_test exampleWindow 198 97 false rfl (by decide) (by decide)).1.trans (by decide),
    (hover_test exampleWindow 198 97 false rfl (by decide) (by decide)).2.trans (by decide)⟩⟩

/-! ## Frames of a resize gesture -/

/-- The rectangle `Window.SetLocation` hands on satisfies the size constraint
as soon as some rectangle does. -/
theorem conforms_SetLocation (w : Window) (R0 P : Rectangle) (h : w.conforms R0) :
    w.conforms (w.SetLocation P).container.Rect := by
  obtain ⟨h1, h2⟩ := h
  constructor
  · intro m hm
    obtain ⟨a1, a2⟩ := h1 m hm
    rw [SetLocation_Dx, SetLocation_Dy, hm]
    cases hM : w.MaxSize with
    | none => simp only []; constructor <;> split_ifs <;> omega
    | some M =>
      obtain ⟨b1, b2⟩ := h2 M hM
      simp only []; constructor <;> split_ifs <;> omega
  · intro M hM
    obtain ⟨b1, b2⟩ := h2 M hM
    rw [SetLocation_Dx, SetLocation_Dy, hM]
    cases hm : w.MinSize with
    | none => simp only []; constructor <;> split_ifs <;> omega
    | some m =>
      obtain ⟨a1, a2⟩ := h1 m hm
      simp only []; constructor <;> split_ifs <;> omega

theorem conforms_congr {a b : Window} (h1 : a.MinSize = b.MinSize) (h2 : a.MaxSize = b.MaxSize)
    (R : Rectangle) (h : b.conforms R) : a.conforms R := by
  unfold Window.conforms at *
  rw [h1, h2]
  exact h

/-- An extent within the bounds passes `Window.SetLocation` as it is. -/
theorem SetLocation_keeps_Dx (w : Window) (R P : Rectangle) (h : w.conforms R)
    (e : P.Dx = R.Dx) : (w.SetLocation P).container.Rect.Dx = R.Dx := by
  obtain ⟨h1, h2⟩ := h
  rw [SetLocation_Dx, e]
  cases hm : w.MinSize with
  | none =>
    cases hM : w.MaxSize with
    | none => rfl
    | some M => obtain ⟨b1, b2⟩ := h2 M hM; simp only []; split_ifs <;> omega
  | some m =>
    obtain ⟨a1, a2⟩ := h1 m hm
    cases hM : w.MaxSize with
    | none => simp only []; split_ifs <;> omega
    | some M => obtain ⟨b1, b2⟩ := h2 M hM; simp only []; split_ifs <;> omega

theorem SetLocation_keeps_Dy (w : Window) (R P : Rectangle) (h : w.conforms R)
    (e : P.Dy = R.Dy) : (w.SetLocation P).container.Rect.Dy = R.Dy := by
  obtain ⟨h1, h2⟩ := h
  rw [SetLocation_Dy, e]
  cases hm : w.MinSize with
  | none =>
    cases hM : w.MaxSize with
    | none => rfl
    | some M => obtain ⟨b1, b2⟩ := h2 M hM; simp only []; split_ifs <;> omega
  | some m =>
    obtain ⟨a1, a2⟩ := h1 m hm
    cases hM : w.MaxSize with
    | none => simp only []; split_ifs <;> omega
    | some M => obtain ⟨b1, b2⟩ := h2 M hM; simp only []; split_ifs <;> omega

theorem SetLocation_Min (w : Window) (R : Rectangle) :
    (w.SetLocation R).container.Rect.Min = R.Min := by
  rw [SetLocation_rect, clampMax_Min, clampMin_Min]

/-- The rectangle after a frame on a window that is not being dragged and has
at most one resize axis selected. -/
theorem Render_resize_rect (s : Window) (x y : Int) (a : Bool) (hd : s.dragging = false)
    (hb : ¬ (s.resizingWidth = true ∧ s.resizingHeight = true)) :
    (s.Render x y a).1.container.Rect =
      if s.resizing = true ∧ (s.startingPoint.X ≠ x ∨ s.startingPoint.Y ≠ y) then
        if s.resizingWidth = true then
          (s.SetLocation { s.container.Rect with
            Max := { s.container.Rect.Max with
              X := s.originalSize.X - (s.startingPoint.X - x) } }).container.Rect
        else if s.resizingHeight = true then
          (s.SetLocation { s.container.Rect with
            Max := { s.container.Rect.Max with
              Y := s.originalSize.Y - (s.startingPoint.Y - y) } }).container.Rect
        else s.container.Rect
      else s.container.Rect := by
  obtain ⟨-, -, -, -, -, s6, -, -⟩ := Render_spec s x y a
  rw [s6, renderDrag_idle s x y hd]
  split_ifs with h1 hw hh
  · have hh : s.resizingHeight = false := by
      cases hh : s.resizingHeight
      · rfl
      · exact absurd ⟨hw, hh⟩ hb
    have e : (s.renderResizeWidth x).resizingHeight = false :=
      (renderResizeWidth_sameFlags s x).1.2.2.2.1.trans hh
    rw [renderResize_resizing s x y h1.1 h1.2, renderResizeHeight_idle _ y e]
    unfold Window.renderResizeWidth
    rw [if_pos hw]
    rfl
  · have hw2 : s.resizingWidth = false := by simpa using hw
    rw [renderResize_resizing s x y h1.1 h1.2, renderResizeWidth_idle s x hw2]
    unfold Window.renderResizeHeight
    rw [if_pos hh]
    rfl
  · have hw2 : s.resizingWidth = false := by simpa using hw
    have hh2 : s.resizingHeight = false := by simpa using hh
    rw [renderResize_no_axis s x y hw2 hh2]
  · by_cases hr : s.resizing = true
    · have h2 : ¬ (s.startingPoint.X ≠ x ∨ s.startingPoint.Y ≠ y) := fun h => h1 ⟨hr, h⟩
      have hx : s.startingPoint.X = x := by
        by_contra hc; exact h2 (Or.inl hc)
      have hy : s.startingPoint.Y = y := by
        by_contra hc; exact h2 (Or.inr hc)
      have hp : s.startingPoint = ⟨x, y⟩ := by
        subst hx; subst hy; rfl
      rw [renderResize_same s x y hp]
    · rw [renderResize_idle s x y (by simpa using hr)]

/-- A frame of a resize gesture on a window that is not being dragged and whose
rectangle satisfies the size constraint keeps the gesture, the recorded
pointer, the gesture-start size, the origin and the conformance. -/
theorem Render_resize_inv (t : Window) (x y : Int) (a : Bool) (hd : t.dragging = false)
    (hc : t.conforms t.container.Rect) (hw : t.wellFormed) :
    (t.Render x y a).1.dragging = false ∧
    (t.Render x y a).1.resizing = t.resizing ∧
    (t.Render x y a).1.startingPoint = t.startingPoint ∧
    (t.Render x y a).1.originalSize = t.originalSize ∧
    (t.Render x y a).1.container.Rect.Min = t.container.Rect.Min ∧
    (t.Render x y a).1.conforms (t.Render x y a).1.container.Rect ∧
    (t.Render x y a).1.wellFormed := by
  obtain ⟨s1, s2, s3, -, s5, -, -, -⟩ := Render_spec t x y a
  obtain ⟨c1, c2, -⟩ := Render_sameConfig t x y a
  have hr := Render_resize_rect t x y a hd hw.2.2.2.2.2
  have hwf : (t.Render x y a).1.wellFormed := step_wellFormed t (Input.Render x y a) hw
  refine ⟨s1.trans hd, s2, ?_, s3, ?_, ?_, hwf⟩
  · rw [s5, renderDrag_idle t x y hd]
  · rw [hr]
    split_ifs
    · rw [SetLocation_Min]
    · rw [SetLocation_Min]
    · rfl
    · rfl
  · apply conforms_congr c1 c2
    rw [hr]
    split_ifs
    · exact conforms_SetLocation t _ _ hc
    · exact conforms_SetLocation t _ _ hc
    · exact hc
    · exact hc

/-- Frames after a contents press, on a window that is not being dragged and
whose rectangle satisfies the size constraint: the gesture goes on with the
pointer and the size recorded at the press, the origin stays. -/
theorem run_frames_resizing (ps : List (Int × Int × Bool)) (t : Window)
    (hd : t.dragging = false) (hc : t.conforms t.container.Rect) (hw : t.wellFormed) :
    (run t (frames ps)).1.dragging = false ∧
    (run t (frames ps)).1.resizing = t.resizing ∧
    (run t (frames ps)).1.startingPoint = t.startingPoint ∧
    (run t (frames ps)).1.originalSize = t.originalSize ∧
    (run t (frames ps)).1.container.Rect.Min = t.container.Rect.Min ∧
    (run t (frames ps)).1.conforms (run t (frames ps)).1.container.Rect ∧
    (run t (frames ps)).1.wellFormed := by
  induction ps generalizing t with
  | nil => exact ⟨hd, rfl, rfl, rfl, rfl, hc, hw⟩
  | cons p ps ih =>
    obtain ⟨a1, a2, a3, a4, a5, a6, a7⟩ := Render_resize_inv t p.1 p.2.1 p.2.2 hd hc hw
    obtain ⟨b1, b2, b3, b4, b5, b6, b7⟩ := ih (t.Render p.1 p.2.1 p.2.2).1 a1 a6 a7
    rw [frames_cons, run_cons]
    simp only [step]
    exact ⟨b1, b2.trans a2, b3.trans a3, b4.trans a4, b5.trans a5, b6, b7⟩

/-- C15 (as stated, refuted): on the example window `(0,0)-(200,100)`, hovered
at `(198,50)` so that width-resize is selected, the title bar is pressed at
`(198,10)` and then the contents at `(198,50)`; the frame at `(208,50)` runs
the drag block: the window goes to `(10,0)-(210,100)`, still 200 wide and not
`200 - (198 - 208) = 210`, its origin moved, and the recorded pointer is
overwritten with `(208,50)`. -/
theorem resize_absolute_counterexample :
    ((run exampleWindow [Input.Render 198 50 true, Input.titleBarPressed 198 10]).1.dragging,
     (run exampleWindow [Input.Render 198 50 true, Input.titleBarPressed 198 10]).1.container.Rect,
     (run exampleWindow [Input.Render 198 50 true, Input.titleBarPressed 198 10,
        Input.contentsPressed 198 50]).1.resizing,
     (run exampleWindow [Input.Render 198 50 true, Input.titleBarPressed 198 10,
        Input.contentsPressed 198 50]).1.resizingWidth,
     (run exampleWindow [Input.Render 198 50 true, Input.titleBarPressed 198 10,
        Input.contentsPressed 198 50]).1.startingPoint,
     (run exampleWindow [Input.Render 198 50 true, Input.titleBarPressed 198 10,
        Input.contentsPressed 198 50, Input.Render 208 50 true]).1.container.Rect,
     (run exampleWindow [Input.Render 198 50 true, Input.titleBarPressed 198 10,
        Input.contentsPressed 198 50, Input.Render 208 50 true]).1.startingPoint)
      = (true, ⟨⟨0, 0⟩, ⟨200, 100⟩⟩, true, true, ⟨198, 50⟩,
          ⟨⟨10, 0⟩, ⟨210, 100⟩⟩, ⟨208, 50⟩)
    ∧ Rectangle.Dx ⟨⟨10, 0⟩, ⟨210, 100⟩⟩ ≠ 200 - (198 - 208)
    ∧ (⟨10, 0⟩ : Point) ≠ ⟨0, 0⟩
    ∧ (⟨208, 50⟩ : Point) ≠ ⟨198, 50⟩ := by
  decide

/-- C15 (amended): on a resizeable window that is not being dragged and whose rectangle
`R0` satisfies the size constraint, after a contents press at `(sx, sy)` and
any frames, a frame at a pointer `(x, y)` other than `(sx, sy)` with
width-resize selected hands `Window.SetLocation` the rectangle of origin
`R0.Min` and width `R0.Dx - (sx - x)`, and the clamped rectangle is the
window's, with the origin of `R0` and the height the window had before the
frame; likewise for height-resize; the recorded pointer stays `(sx, sy)` and
the gesture-start size stays the `Max` corner of `R0`. -/
theorem resize_absolute (opts : List WindowOpt) (w u : Window) (sx sy : Int)
    (ps : List (Int × Int × Bool)) (x y : Int) (a : Bool)
    (hr : Reachable opts w) (hR : w.Resizeable = true) (hd : w.dragging = false)
    (hc : w.conforms w.container.Rect) (hp : sx ≠ x ∨ sy ≠ y)
    (hu : (run w (Input.contentsPressed sx sy :: frames ps)).1 = u) :
    (u.resizingWidth = true →
      (u.Render x y a).1.container.Rect =
        (w.SetLocation ⟨w.container.Rect.Min,
          ⟨w.container.Rect.Max.X - (sx - x), u.container.Rect.Max.Y⟩⟩).container.Rect ∧
      Rectangle.Dx ⟨w.container.Rect.Min,
          ⟨w.container.Rect.Max.X - (sx - x), u.container.Rect.Max.Y⟩⟩ =
        w.container.Rect.Dx - (sx - x) ∧
      (u.Render x y a).1.container.Rect.Min = w.container.Rect.Min ∧
      (u.Render x y a).1.container.Rect.Dy = u.container.Rect.Dy) ∧
    (u.resizingHeight = true →
      (u.Render x y a).1.container.Rect =
        (w.SetLocation ⟨w.container.Rect.Min,
          ⟨u.container.Rect.Max.X, w.container.Rect.Max.Y - (sy - y)⟩⟩).container.Rect ∧
      Rectangle.Dy ⟨w.container.Rect.Min,
          ⟨u.container.Rect.Max.X, w.container.Rect.Max.Y - (sy - y)⟩⟩ =
        w.container.Rect.Dy - (sy - y) ∧
      (u.Render x y a).1.container.Rect.Min = w.container.Rect.Min ∧
      (u.Render x y a).1.container.Rect.Dx = u.container.Rect.Dx) ∧
    (u.Render x y a).1.startingPoint = ⟨sx, sy⟩ ∧
    (u.Render x y a).1.originalSize = w.container.Rect.Max := by
  have hwf := Reachable_wellFormed opts w hr
  have hh : w.contentsHandlers = true := by rw [hwf.2.2.2.1]; exact hR
  have e1 : (step w (Input.contentsPressed sx sy)).1 =
      { w with startingPoint := ⟨sx, sy⟩,
               originalSize := ⟨w.container.Rect.Max.X, w.container.Rect.Max.Y⟩,
               resizing := true } := by
    simp only [step, Window.contentsPressed, hh, if_true]
  have hwf1 := step_wellFormed w (Input.contentsPressed sx sy) hwf
  rw [run_cons, e1] at hu
  rw [e1] at hwf1
  obtain ⟨b1, b2, b3, b4, b5, b6, b7⟩ := run_frames_resizing ps
    { w with startingPoint := ⟨sx, sy⟩,
             originalSize := ⟨w.container.Rect.Max.X, w.container.Rect.Max.Y⟩,
             resizing := true } hd hc hwf1
  obtain ⟨c1, c2, -⟩ := run_sameConfig
    { w with startingPoint := ⟨sx, sy⟩,
             originalSize := ⟨w.container.Rect.Max.X, w.container.Rect.Max.Y⟩,
             resizing := true } (frames ps)
  simp only [] at hu
  rw [hu] at b1 b2 b3 b4 b5 b6 b7 c1 c2
  have g2 : u.resizing = true := b2
  have g3 : u.startingPoint = ⟨sx, sy⟩ := b3
  have g4 : u.originalSize = w.container.Rect.Max := b4
  have g5 : u.container.Rect.Min = w.container.Rect.Min := b5
  have m1 : u.MinSize = w.MinSize := c1
  have m2 : u.MaxSize = w.MaxSize := c2
  have hmv : u.resizing = true ∧ (u.startingPoint.X ≠ x ∨ u.startingPoint.Y ≠ y) := by
    rw [g3]; exact ⟨g2, hp⟩
  have hrect := Render_resize_rect u x y a b1 b7.2.2.2.2.2
  rw [if_pos hmv] at hrect
  obtain ⟨-, -, i3, i4, -, -, -⟩ := Render_resize_inv u x y a b1 b6 b7
  refine ⟨?_, ?_, i3.trans g3, i4.trans g4⟩
  · intro hw
    rw [if_pos hw] at hrect
    have eP : ({ u.container.Rect with
        Max := { u.container.Rect.Max with
          X := u.originalSize.X - (u.startingPoint.X - x) } } : Rectangle) =
        ⟨w.container.Rect.Min,
          ⟨w.container.Rect.Max.X - (sx - x), u.container.Rect.Max.Y⟩⟩ := by
      simp only [g3, g4, g5]
    refine ⟨?_, ?_, ?_, ?_⟩
    · rw [hrect, eP, SetLocation_rect, SetLocation_rect, m1, m2]
    · simp only [Rectangle.Dx]; omega
    · rw [hrect, SetLocation_Min]; exact g5
    · rw [hrect]
      exact SetLocation_keeps_Dy u u.container.Rect _ b6 rfl
  · intro hh2
    have hw : ¬ u.resizingWidth = true := fun hw => b7.2.2.2.2.2 ⟨hw, hh2⟩
    rw [if_neg hw, if_pos hh2] at hrect
    have eP : ({ u.container.Rect with
        Max := { u.container.Rect.Max with
          Y := u.originalSize.Y - (u.startingPoint.Y - y) } } : Rectangle) =
        ⟨w.container.Rect.Min,
          ⟨u.container.Rect.Max.X, w.container.Rect.Max.Y - (sy - y)⟩⟩ := by
      simp only [g3, g4, g5]
    refine ⟨?_, ?_, ?_, ?_⟩
    · rw [hrect, eP, SetLocation_rect, SetLocation_rect, m1, m2]
    · simp only [Rectangle.Dy]; omega
    · rw [hrect, SetLocation_Min]; exact g5
    · rw [hrect]
      exact SetLocation_keeps_Dx u u.container.Rect _ b6 rfl

/-- C15 (amended) on the example window `(0,0)-(200,100)` after a hover at `(198,50)`: the
contents pressed at `(198,50)`, a frame at `(208,50)`, then the frame at
`(228,50)` takes the window to `(0,0)-(230,100)`, the width
`200 - (198 - 228)`, with the pointer `(198,50)` and the size `(200,100)` still
recorded. -/
theorem resize_absolute_witness :
    ((run (run exampleWindow [Input.Render 198 50 true]).1
        (Input.contentsPressed 198 50 :: frames [(208, 50, true)])).1.Render
          228 50 true).1.container.Rect = ⟨⟨0, 0⟩, ⟨230, 100⟩⟩ ∧
    ((run (run exampleWindow [Input.Render 198 50 true]).1
        (Input.contentsPressed 198 50 :: frames [(208, 50, true)])).1.Render
          228 50 true).1.startingPoint = ⟨198, 50⟩ ∧
    ((run (run exampleWindow [Input.Render 198 50 true]).1
        (Input.contentsPressed 198 50 :: frames [(208, 50, true)])).1.Render
          228 50 true).1.originalSize = ⟨200, 100⟩ :=
  ⟨((resize_absolute exampleOpts (run exampleWindow [Input.Render 198 50 true]).1 _ 198 50
      [(208, 50, true)] 228 50 true (exampleWindow_reachable [Input.Render 198 50 true]) rfl rfl
      ⟨fun m hm => by
          have h : some (⟨100, 50⟩ : Point) = some m := hm
          cases h; decide,
       fun M hM => by
          have h : some (⟨400, 300⟩ : Point) = some M := hM
          cases h; decide⟩
      (by decide) rfl).1 rfl).1.trans (by decide),
   (resize_absolute exampleOpts (run exampleWindow [Input.Render 198 50 true]).1 _ 198 50
      [(208, 50, true)] 228 50 true (exampleWindow_reachable [Input.Render 198 50 true]) rfl rfl
      ⟨fun m hm => by
          have h : some (⟨100, 50⟩ : Point) = some m := hm
          cases h; decide,
       fun M hM => by
          have h : some (⟨400, 300⟩ : Point) = some M := hM
          cases h; decide⟩
      (by decide) rfl).2.2⟩

end widget
